import Mathlib

/-!
# sveltos-manager: event mappers and the ClusterSummary scope

A shallow embedding of

* `controllers/clusterprofile_transformations.go`
  (`requeueClusterProfileForCluster`, `requeueClusterProfileForMachine`), and
* `pkg/scope/clustersummary.go` (the `ClusterSummaryScope` mutators),

followed by theorems about them.

Conventions of the embedding.

* A Go `map[K]V` is an association list with pairwise distinct keys; the order of
  the list is the order in which a `range` over the map visits it.  Go leaves that
  order unspecified, so statements quantify over every list.
* A Go slice that may be `nil` is an `Option (List _)`, `none` being `nil`.
* A Go pointer that may be `nil` is an `Option`.
* A function that can panic returns an `Option`, `none` being the panic.
-/

namespace Sveltos

/-! ## Kubernetes object identities -/

/-- The Go struct `corev1.ObjectReference`; it is used as a map key, so equality is
structural over all seven fields. -/
structure ObjectReference where
  Kind : String := ""
  Namespace : String := ""
  Name : String := ""
  UID : String := ""
  APIVersion : String := ""
  ResourceVersion : String := ""
  FieldPath : String := ""
deriving DecidableEq, Repr

/-- The Go struct `types.NamespacedName` (`client.ObjectKey` is an alias of it). -/
structure NamespacedName where
  Namespace : String := ""
  Name : String := ""
deriving DecidableEq, Repr

/-- The Go struct `ctrl.Request` (`reconcile.Request`). -/
structure Request where
  NamespacedName : NamespacedName := {}
deriving DecidableEq, Repr

/-- A label set, `map[string]string`. -/
abbrev Labels := List (String × String)

/-- The Go struct `schema.GroupVersionKind`. -/
structure GroupVersionKind where
  Group : String := ""
  Version : String := ""
  Kind : String := ""
deriving DecidableEq, Repr

/-- The method `schema.GroupVersion.String` applied to the group and version of a
`GroupVersionKind`: `group/version`, or the bare version when the group is empty. -/
def GroupVersionKind.GroupVersionString (gvk : GroupVersionKind) : String :=
  if gvk.Group.length > 0 then gvk.Group ++ "/" ++ gvk.Version else gvk.Version

/-- What `requeueClusterProfileForCluster` reads from its `client.Object`:
`GetObjectKind().GroupVersionKind()`, `GetNamespace()`, `GetName()`, `GetLabels()`. -/
structure ClusterObject where
  GroupVersionKind : GroupVersionKind := {}
  Namespace : String := ""
  Name : String := ""
  Labels : Labels := []
deriving DecidableEq, Repr

/-- What `requeueClusterProfileForMachine` reads from a `*clusterv1.Machine`. -/
structure Machine where
  APIVersion : String := ""
  Namespace : String := ""
  Name : String := ""
  Labels : Labels := []
deriving DecidableEq, Repr

/-! ## The set type of libsveltos -/

/-- The type `libsveltosset.Set`: a `map[corev1.ObjectReference]bool` used as a set.
The list holds the keys in the order `Items` returns them. -/
structure Set where
  data : List ObjectReference := []
deriving DecidableEq, Repr

/-- The method `Set.Len`. -/
def Set.Len (s : Set) : Nat := s.data.length

/-- The method `Set.Items`. -/
def Set.Items (s : Set) : List ObjectReference := s.data

/-! ## The reconciler -/

/-- The fields of `ClusterProfileReconciler` the event mappers use.  `ClusterMap` is
the cluster to policies half of the match index, `ClusterProfileMap` the policy to
clusters half, `ClusterProfiles` the known policies with their selector strings. -/
structure ClusterProfileReconciler where
  ClusterMap : List (ObjectReference × Set) := []
  ClusterProfileMap : List (ObjectReference × Set) := []
  ClusterProfiles : List (ObjectReference × String) := []
deriving DecidableEq, Repr

/-- Modelled from the spec: the body of `getClusterMapForEntry`, a method of the
reconciler that is defined outside the two files embedded here.  Section 4.1
describes it as `Lookup(cluster)`, a read of the policies the index records for one
cluster; a cluster the index does not know has the empty set. -/
def ClusterProfileReconciler.getClusterMapForEntry (r : ClusterProfileReconciler)
    (entry : ObjectReference) : Set :=
  match r.ClusterMap.lookup entry with
  | some s => s
  | none => {}

/-- The request the mappers build for a policy reference: only `Name` is set. -/
def requestFor (name : String) : Request :=
  { NamespacedName := { Name := name } }

/-- The loop `for i := range consumers { requests[i] = ... }`, from index `i`
onwards.  An assignment past the end of `requests` is a Go panic. -/
def fillRequests : List ObjectReference → Nat → List Request → Option (List Request)
  | [], _, requests => some requests
  | c :: cs, i, requests =>
    if i < requests.length then
      fillRequests cs (i + 1) (requests.set i (requestFor c.Name))
    else none

/-- The requests for the policies previously matching `clusterInfo`:
`make([]ctrl.Request, Len())` filled from `Items()`. -/
def previousRequests (r : ClusterProfileReconciler) (clusterInfo : ObjectReference) :
    Option (List Request) :=
  let requests := List.replicate (r.getClusterMapForEntry clusterInfo).Len ({} : Request)
  let consumers := (r.getClusterMapForEntry clusterInfo).Items
  fillRequests consumers 0 requests

/-- The loop `for k := range r.ClusterProfiles` of `requeueClusterProfileForCluster`.
`Parse` stands for `labels.Parse`, which returns a nil selector together with its
error when the string is malformed; the code drops the error and calls `Matches` on
the result, which panics on the nil selector. -/
def matchingLoop {σ : Type} (Parse : String → Option σ) (Matches : σ → Labels → Bool)
    (labels : Labels) : List (ObjectReference × String) → List Request →
      Option (List Request)
  | [], requests => some requests
  | (k, clusterProfileSelector) :: rest, requests =>
    match Parse clusterProfileSelector with
    | none => none
    | some parsedSelector =>
      if Matches parsedSelector labels then
        matchingLoop Parse Matches labels rest (requests ++ [requestFor k.Name])
      else
        matchingLoop Parse Matches labels rest requests

/-- The reference `clusterInfo` that `requeueClusterProfileForCluster` builds. -/
def clusterInfoOf (cluster : ClusterObject) : ObjectReference :=
  { APIVersion := cluster.GroupVersionKind.GroupVersionString
    Kind := cluster.GroupVersionKind.Kind
    Namespace := cluster.Namespace
    Name := cluster.Name }

/-- The mapper `requeueClusterProfileForCluster`. -/
def ClusterProfileReconciler.requeueClusterProfileForCluster {σ : Type}
    (Parse : String → Option σ) (Matches : σ → Labels → Bool)
    (r : ClusterProfileReconciler) (cluster : ClusterObject) : Option (List Request) :=
  match previousRequests r (clusterInfoOf cluster) with
  | none => none
  | some requests => matchingLoop Parse Matches cluster.Labels r.ClusterProfiles requests

/-- The mapper `requeueClusterProfileForMachine`; `ClusterLabelName` is the constant
`clusterv1.ClusterLabelName`.  A nil result is the empty list. -/
def ClusterProfileReconciler.requeueClusterProfileForMachine (ClusterLabelName : String)
    (r : ClusterProfileReconciler) (machine : Machine) : Option (List Request) :=
  match machine.Labels.lookup ClusterLabelName with
  | none => some []
  | some clusterLabelName =>
    let clusterInfo : ObjectReference :=
      { APIVersion := machine.APIVersion, Kind := "Cluster"
        Namespace := machine.Namespace, Name := clusterLabelName }
    previousRequests r clusterInfo

/-! ## The ClusterSummary status record -/

/-- The Go type `configv1alpha1.FeatureID`, a string. -/
abbrev FeatureID := String

/-- The Go type `configv1alpha1.FeatureStatus`, a string; the empty string is the
unset status. -/
abbrev FeatureStatus := String

/-- The Go type `metav1.Time`, kept as a number of nanoseconds. -/
structure Time where
  unixNano : Int
deriving DecidableEq, Repr

/-- The Go struct `configv1alpha1.FeatureSummary`. -/
structure FeatureSummary where
  FeatureID : FeatureID := ""
  Hash : Option (List (Fin 256)) := none
  Status : FeatureStatus := ""
  FailureReason : Option String := none
  FailureMessage : Option String := none
  DeployedGroupVersionKind : Option (List String) := none
  LastAppliedTime : Option Time := none
deriving DecidableEq, Repr

/-- The Go struct `configv1alpha1.ClusterSummaryStatus`, as far as the scope uses it. -/
structure ClusterSummaryStatus where
  FeatureSummaries : Option (List FeatureSummary) := none
deriving DecidableEq, Repr

/-- The Go type `configv1alpha1.SyncMode`, a string. -/
abbrev SyncMode := String

/-- The Go struct `configv1alpha1.ClusterProfileSpec`, as far as the scope uses it. -/
structure ClusterProfileSpec where
  SyncMode : SyncMode := ""
deriving DecidableEq, Repr

/-- The Go struct `configv1alpha1.ClusterSummarySpec`, as far as the scope uses it. -/
structure ClusterSummarySpec where
  ClusterProfileSpec : ClusterProfileSpec := {}
deriving DecidableEq, Repr

/-- The Go struct `configv1alpha1.ClusterSummary`, as far as the scope uses it. -/
structure ClusterSummary where
  Name : String := ""
  Namespace : String := ""
  Spec : ClusterSummarySpec := {}
  Status : ClusterSummaryStatus := {}
deriving DecidableEq, Repr

/-- The Go struct `configv1alpha1.ClusterProfile`, as far as the scope uses it. -/
structure ClusterProfile where
  Name : String := ""
  Spec : ClusterProfileSpec := {}
deriving DecidableEq, Repr

/-- The Go struct `ClusterSummaryScope`.  `ClusterSummary` is the record the scope's
pointer refers to; `NewClusterSummaryScope` refuses a nil one. -/
structure ClusterSummaryScope where
  ClusterProfile : Option ClusterProfile := none
  ClusterSummary : ClusterSummary := {}
  controllerName : String := ""
deriving DecidableEq, Repr

/-- The elements of a slice that may be nil: `range` over nil visits nothing. -/
def sliceItems {α : Type} : Option (List α) → List α
  | none => []
  | some l => l

/-- The feature summaries of the scope's record, nil read as empty. -/
def ClusterSummaryScope.summaries (s : ClusterSummaryScope) : List FeatureSummary :=
  sliceItems s.ClusterSummary.Status.FeatureSummaries

/-- The scope with its `Status.FeatureSummaries` slice replaced. -/
def ClusterSummaryScope.withFeatureSummaries (s : ClusterSummaryScope)
    (l : Option (List FeatureSummary)) : ClusterSummaryScope :=
  { s with ClusterSummary :=
      { s.ClusterSummary with Status := { s.ClusterSummary.Status with FeatureSummaries := l } } }

/-- The method `initializeFeatureStatusSummary`. -/
def ClusterSummaryScope.initializeFeatureStatusSummary (s : ClusterSummaryScope) :
    ClusterSummaryScope :=
  match s.ClusterSummary.Status.FeatureSummaries with
  | none => s.withFeatureSummaries (some [])
  | some _ => s

/-- The loop every mutator opens with:
`for i := range FeatureSummaries { if FeatureSummaries[i].FeatureID == featureID { ...; return } }`.
The first entry with the feature id is rewritten by `upd`; `none` says the loop
ended without a `return`. -/
def updateFirst (featureID : FeatureID) (upd : FeatureSummary → FeatureSummary) :
    List FeatureSummary → Option (List FeatureSummary)
  | [] => none
  | e :: rest =>
    if e.FeatureID = featureID then some (upd e :: rest)
    else (updateFirst featureID upd rest).map (fun l => e :: l)

/-- The statement `FeatureSummaries = append(FeatureSummaries, e)`. -/
def ClusterSummaryScope.appendSummary (s : ClusterSummaryScope) (e : FeatureSummary) :
    ClusterSummaryScope :=
  s.withFeatureSummaries (some (s.summaries ++ [e]))

/-- The method `SetFeatureStatus`. -/
def ClusterSummaryScope.SetFeatureStatus (s : ClusterSummaryScope) (featureID : FeatureID)
    (status : FeatureStatus) (hash : Option (List (Fin 256))) : ClusterSummaryScope :=
  match updateFirst featureID (fun e => { e with Status := status, Hash := hash })
      s.summaries with
  | some l => s.withFeatureSummaries (some l)
  | none =>
    s.initializeFeatureStatusSummary.appendSummary
      { FeatureID := featureID, Status := status, Hash := hash }

/-- The method `SetFailureMessage`. -/
def ClusterSummaryScope.SetFailureMessage (s : ClusterSummaryScope) (featureID : FeatureID)
    (failureMessage : Option String) : ClusterSummaryScope :=
  match updateFirst featureID (fun e => { e with FailureMessage := failureMessage })
      s.summaries with
  | some l => s.withFeatureSummaries (some l)
  | none =>
    s.initializeFeatureStatusSummary.appendSummary
      { FeatureID := featureID, FailureMessage := failureMessage }

/-- The method `SetFailureReason`. -/
def ClusterSummaryScope.SetFailureReason (s : ClusterSummaryScope) (featureID : FeatureID)
    (failureReason : Option String) : ClusterSummaryScope :=
  match updateFirst featureID (fun e => { e with FailureReason := failureReason })
      s.summaries with
  | some l => s.withFeatureSummaries (some l)
  | none =>
    s.initializeFeatureStatusSummary.appendSummary
      { FeatureID := featureID, FailureReason := failureReason }

/-- The key `fmt.Sprintf("%s.%s.%s", Kind, Version, Group)`. -/
def gvkKey (gvk : GroupVersionKind) : String :=
  gvk.Kind ++ "." ++ gvk.Version ++ "." ++ gvk.Group

/-- The first loop of `updateDeployedGroupVersionKind`: every recorded key goes into
the map `current` and, in order, onto `tmp`. -/
def copyCurrent : List String → List String × List String → List String × List String
  | [], st => st
  | k :: rest, (current, tmp) =>
    copyCurrent rest (if k ∈ current then current else k :: current, tmp ++ [k])

/-- The second loop of `updateDeployedGroupVersionKind`: a key not in `current` is
added to it and appended to `tmp`. -/
def mergeDeployed : List GroupVersionKind → List String × List String →
    List String × List String
  | [], st => st
  | d :: rest, (current, tmp) =>
    let key := gvkKey d
    if key ∈ current then mergeDeployed rest (current, tmp)
    else mergeDeployed rest (key :: current, tmp ++ [key])

/-- The method `updateDeployedGroupVersionKind`; `current` holds the keys of the Go
map of that name. -/
def updateDeployedGroupVersionKind (fs : FeatureSummary) (deployed : List GroupVersionKind) :
    FeatureSummary :=
  let st := copyCurrent (sliceItems fs.DeployedGroupVersionKind) ([], [])
  let st := mergeDeployed deployed st
  { fs with DeployedGroupVersionKind := some st.2 }

/-- The method `SetDeployedGroupVersionKind`. -/
def ClusterSummaryScope.SetDeployedGroupVersionKind (s : ClusterSummaryScope)
    (featureID : FeatureID) (deployed : List GroupVersionKind) : ClusterSummaryScope :=
  match updateFirst featureID (fun e => updateDeployedGroupVersionKind e deployed)
      s.summaries with
  | some l => s.withFeatureSummaries (some l)
  | none =>
    let s1 := s.initializeFeatureStatusSummary.appendSummary { FeatureID := featureID }
    match updateFirst featureID (fun e => updateDeployedGroupVersionKind e deployed)
        s1.summaries with
    | some l => s1.withFeatureSummaries (some l)
    | none => s1

/-- The method `SetLastAppliedTime`. -/
def ClusterSummaryScope.SetLastAppliedTime (s : ClusterSummaryScope) (featureID : FeatureID)
    (lastAppliedTime : Option Time) : ClusterSummaryScope :=
  match updateFirst featureID (fun e => { e with LastAppliedTime := lastAppliedTime })
      s.summaries with
  | some l => s.withFeatureSummaries (some l)
  | none =>
    s.initializeFeatureStatusSummary.appendSummary
      { FeatureID := featureID, LastAppliedTime := lastAppliedTime }

/-- The deployed-kind list recorded for a feature: that of the first entry with the
feature id, empty when there is none. -/
def ClusterSummaryScope.deployedOf (s : ClusterSummaryScope) (featureID : FeatureID) :
    List String :=
  match s.summaries.find? (fun e => decide (e.FeatureID = featureID)) with
  | some e => sliceItems e.DeployedGroupVersionKind
  | none => []

/-! ## Definitions used to state the properties -/

/-- Whether a selector string parses to a selector that matches the labels. -/
def selectorMatches {σ : Type} (Parse : String → Option σ) (Matches : σ → Labels → Bool)
    (labels : Labels) (selector : String) : Bool :=
  match Parse selector with
  | some parsedSelector => Matches parsedSelector labels
  | none => false

/-- A fragment of the label-selector language, for concrete examples: one equality
requirement `key=value` with a non-empty key.  Everything else is rejected. -/
def equalityParse (s : String) : Option (String × String) :=
  match s.data.span (fun c => c != '=') with
  | (k, '=' :: v) =>
    if k.isEmpty || v.contains '=' then none else some (String.mk k, String.mk v)
  | _ => none

/-- An equality requirement matches a label set that maps its key to its value. -/
def equalityMatches (sel : String × String) (labels : Labels) : Bool :=
  labels.lookup sel.1 == some sel.2

/-- A reconciler whose index records policy `p1` for cluster `ns/c1` and which knows
the policies `p1` (selecting `env=production`) and `p2` (selecting `env=qa`). -/
def exampleReconciler : ClusterProfileReconciler :=
  { ClusterMap :=
      [({ Kind := "Cluster", Namespace := "ns", Name := "c1",
          APIVersion := "cluster.x-k8s.io/v1beta1" },
        { data := [{ Kind := "ClusterProfile", Name := "p1" }] })]
    ClusterProfileMap :=
      [({ Kind := "ClusterProfile", Name := "p1" },
        { data := [{ Kind := "Cluster", Namespace := "ns", Name := "c1",
                     APIVersion := "cluster.x-k8s.io/v1beta1" }] }),
       ({ Kind := "ClusterProfile", Name := "p2" }, {})]
    ClusterProfiles :=
      [({ Kind := "ClusterProfile", Name := "p1" }, "env=production"),
       ({ Kind := "ClusterProfile", Name := "p2" }, "env=qa")] }

/-- The cluster `ns/c1`, labelled `env=production`. -/
def exampleCluster : ClusterObject :=
  { GroupVersionKind := { Group := "cluster.x-k8s.io", Version := "v1beta1", Kind := "Cluster" }
    Namespace := "ns", Name := "c1", Labels := [("env", "production")] }

/-- The example reconciler with a third policy `p3` whose selector `=production`
has no key and does not parse. -/
def malformedReconciler : ClusterProfileReconciler :=
  { exampleReconciler with
    ClusterProfiles := exampleReconciler.ClusterProfiles ++
      [({ Kind := "ClusterProfile", Name := "p3" }, "=production")] }

/-- A reconciler with an empty index whose only known policy `p3` has the selector
`=production`, which does not parse. -/
def unparsableReconciler : ClusterProfileReconciler :=
  { ClusterProfiles := [({ Kind := "ClusterProfile", Name := "p3" }, "=production")] }

/-- A reconciler with an empty index that knows two policies selecting `env=qa`. -/
def qaReconciler : ClusterProfileReconciler :=
  { ClusterProfiles :=
      [({ Kind := "ClusterProfile", Name := "p1" }, "env=qa"),
       ({ Kind := "ClusterProfile", Name := "p2" }, "env=qa")] }

/-- A machine of namespace `ns` that carries no owning-cluster label. -/
def unlabelledMachine : Machine :=
  { APIVersion := "cluster.x-k8s.io/v1beta1", Namespace := "ns", Name := "m1"
    Labels := [("zone", "a")] }

/-- The keys of a list in order of first appearance: every occurrence of a key after
its first is removed. -/
def keepFirst : List String → List String
  | [] => []
  | k :: rest => k :: (keepFirst rest).filter (fun x => x != k)

/-- The list `updateDeployedGroupVersionKind` stores for a feature whose recorded
list is `recorded`. -/
def mergeKeys (recorded : List String) (deployed : List GroupVersionKind) : List String :=
  (mergeDeployed deployed (copyCurrent recorded ([], []))).2

/-- The calls `SetFeatureStatus(f, status, hash)` for the given statuses and hashes,
one after the other. -/
def setFeatureStatusAll (s : ClusterSummaryScope) (featureID : FeatureID)
    (calls : List (FeatureStatus × Option (List (Fin 256)))) : ClusterSummaryScope :=
  calls.foldl (fun s call => s.SetFeatureStatus featureID call.1 call.2) s

/-- The calls `SetDeployedGroupVersionKind(f, K)` for the given lists, one after the
other. -/
def setDeployedAll (s : ClusterSummaryScope) (featureID : FeatureID)
    (calls : List (List GroupVersionKind)) : ClusterSummaryScope :=
  calls.foldl (fun s deployed => s.SetDeployedGroupVersionKind featureID deployed) s

/-- The number of entries with a feature id. -/
def ClusterSummaryScope.entriesFor (s : ClusterSummaryScope) (featureID : FeatureID) : Nat :=
  s.summaries.countP (fun e => decide (e.FeatureID = featureID))

/-- A scope whose record has an entry for `Helm` with one deployed kind and an entry
for `Resources` that failed. -/
def exampleScope : ClusterSummaryScope :=
  { ClusterSummary :=
      { Name := "summary", Namespace := "ns"
        Status :=
          { FeatureSummaries := some
              [{ FeatureID := "Helm", Status := "Provisioned", Hash := some [1, 2]
                 DeployedGroupVersionKind := some ["Deployment.v1.apps"] },
               { FeatureID := "Resources", Status := "Failed"
                 FailureMessage := some "apply failed" }] } } }

/-- The set a Go map of sets holds for a key; a key the map lacks has the empty set. -/
def lookupSet (m : List (ObjectReference × Set)) (key : ObjectReference) : Set :=
  match m.lookup key with
  | some s => s
  | none => {}

/-- The index is symmetric: a policy is among the policies recorded for a cluster
exactly when the cluster is among the clusters recorded for the policy. -/
def indexSymmetric (r : ClusterProfileReconciler) : Prop :=
  ∀ cluster policy : ObjectReference,
    policy ∈ (lookupSet r.ClusterMap cluster).Items ↔
      cluster ∈ (lookupSet r.ClusterProfileMap policy).Items

/-- The helper `getClusterMapForEntry` as the mappers call it: from the reconciler and
a cluster reference it gives the set it returns and the reconciler it leaves behind.
The reconciler is a pointer receiver, so the helper may write to it. -/
abbrev ClusterMapGetter :=
  ClusterProfileReconciler → ObjectReference → Set × ClusterProfileReconciler

/-- Modelled from the spec: the contract of `getClusterMapForEntry`, a method of the
reconciler whose body is outside the two files embedded here.  Section 4.1 makes
`Lookup(cluster)` a read that returns the set of policies the index records for the
cluster: the helper returns that set, empty for a cluster the index does not know,
and leaves every recorded set, the other half of the index and the known policies as
they were.  It may still add an empty record for a cluster it did not know. -/
def isLookup (get : ClusterMapGetter) : Prop :=
  ∀ (r : ClusterProfileReconciler) (entry : ObjectReference),
    (get r entry).1 = lookupSet r.ClusterMap entry ∧
    (∀ cluster, lookupSet (get r entry).2.ClusterMap cluster = lookupSet r.ClusterMap cluster) ∧
    (get r entry).2.ClusterProfileMap = r.ClusterProfileMap ∧
    (get r entry).2.ClusterProfiles = r.ClusterProfiles

/-- A helper that only reads the index. -/
def readOnlyGetter : ClusterMapGetter :=
  fun r entry => (lookupSet r.ClusterMap entry, r)

/-- A helper that, for a cluster the index does not know, stores an empty set for it
and returns that set. -/
def getOrCreateGetter : ClusterMapGetter :=
  fun r entry =>
    match r.ClusterMap.lookup entry with
    | some s => (s, r)
    | none => (({} : Set), { r with ClusterMap := r.ClusterMap ++ [(entry, ({} : Set))] })

/-- The mapper `requeueClusterProfileForCluster` with the reconciler it leaves behind,
whether it returns or panics.  `Len()` and `Items()` are taken from two calls of
`getClusterMapForEntry`, which are the only statements that can write to `r`; the
known policies are read from `r` after them. -/
def ClusterProfileReconciler.runRequeueClusterProfileForCluster {σ : Type}
    (get : ClusterMapGetter) (Parse : String → Option σ) (Matches : σ → Labels → Bool)
    (r : ClusterProfileReconciler) (cluster : ClusterObject) :
    Option (List Request) × ClusterProfileReconciler :=
  let clusterInfo := clusterInfoOf cluster
  let first := get r clusterInfo
  let requests := List.replicate first.1.Len ({} : Request)
  let second := get first.2 clusterInfo
  let consumers := second.1.Items
  match fillRequests consumers 0 requests with
  | none => (none, second.2)
  | some requests =>
    (matchingLoop Parse Matches cluster.Labels second.2.ClusterProfiles requests, second.2)

/-- The mapper `requeueClusterProfileForMachine` with the reconciler it leaves behind:
without the owning-cluster label it returns before anything is called; with it
`Len()` and `Items()` are taken from two calls of `getClusterMapForEntry`. -/
def ClusterProfileReconciler.runRequeueClusterProfileForMachine (get : ClusterMapGetter)
    (ClusterLabelName : String) (r : ClusterProfileReconciler) (machine : Machine) :
    Option (List Request) × ClusterProfileReconciler :=
  match machine.Labels.lookup ClusterLabelName with
  | none => (some [], r)
  | some clusterLabelName =>
    let clusterInfo : ObjectReference :=
      { APIVersion := machine.APIVersion, Kind := "Cluster"
        Namespace := machine.Namespace, Name := clusterLabelName }
    let first := get r clusterInfo
    let requests := List.replicate first.1.Len ({} : Request)
    let second := get first.2 clusterInfo
    let consumers := second.1.Items
    (fillRequests consumers 0 requests, second.2)

/-- A cluster `ns/c2` the example index has no record for, labelled `env=qa`. -/
def unknownCluster : ClusterObject :=
  { GroupVersionKind := { Group := "cluster.x-k8s.io", Version := "v1beta1", Kind := "Cluster" }
    Namespace := "ns", Name := "c2", Labels := [("env", "qa")] }

/-- A machine of the cluster `ns/c2`, which the example index has no record for. -/
def unknownClusterMachine : Machine :=
  { APIVersion := "cluster.x-k8s.io/v1beta1", Namespace := "ns", Name := "m3"
    Labels := [("cluster.x-k8s.io/cluster-name", "c2")] }

/-- The example reconciler after the selectors changed: `p1`, which the index records
for `ns/c1`, now selects `env=qa`, and `p2`, which it does not record, now selects
`env=production`. -/
def staleReconciler : ClusterProfileReconciler :=
  { exampleReconciler with
    ClusterProfiles :=
      [({ Kind := "ClusterProfile", Name := "p1" }, "env=qa"),
       ({ Kind := "ClusterProfile", Name := "p2" }, "env=production")] }

/-- A machine of cluster `ns/c1`: it carries the owning-cluster label. -/
def labelledMachine : Machine :=
  { APIVersion := "cluster.x-k8s.io/v1beta1", Namespace := "ns", Name := "m2"
    Labels := [("zone", "a"), ("cluster.x-k8s.io/cluster-name", "c1")] }

/-- The feature ids of the record are pairwise distinct. -/
def ClusterSummaryScope.distinctFeatureIDs (s : ClusterSummaryScope) : Prop :=
  (s.summaries.map (fun e => e.FeatureID)).Nodup

/-- One call of a mutator of the scope, with its arguments. -/
inductive Mutation where
  | setFeatureStatus (featureID : FeatureID) (status : FeatureStatus)
      (hash : Option (List (Fin 256)))
  | setFailureReason (featureID : FeatureID) (failureReason : Option String)
  | setFailureMessage (featureID : FeatureID) (failureMessage : Option String)
  | setDeployedGroupVersionKind (featureID : FeatureID) (deployed : List GroupVersionKind)
  | setLastAppliedTime (featureID : FeatureID) (lastAppliedTime : Option Time)
deriving DecidableEq, Repr

/-- The scope after one call of a mutator. -/
def ClusterSummaryScope.mutate (s : ClusterSummaryScope) : Mutation → ClusterSummaryScope
  | .setFeatureStatus f status hash => s.SetFeatureStatus f status hash
  | .setFailureReason f failureReason => s.SetFailureReason f failureReason
  | .setFailureMessage f failureMessage => s.SetFailureMessage f failureMessage
  | .setDeployedGroupVersionKind f deployed => s.SetDeployedGroupVersionKind f deployed
  | .setLastAppliedTime f lastAppliedTime => s.SetLastAppliedTime f lastAppliedTime

/-- The entries of the record whose feature id differs from the given one, in
order. -/
def ClusterSummaryScope.othersOf (s : ClusterSummaryScope) (featureID : FeatureID) :
    List FeatureSummary :=
  s.summaries.filter (fun e => decide (e.FeatureID ≠ featureID))

/-- The text of a Go `error`; an `Option Error` is an error that may be nil. -/
abbrev Error := String

/-- The Go struct `logr.Logger`; the zero logger has no sink. -/
structure Logger where
  sink : Option String := none
  level : Int := 0
deriving DecidableEq, Repr

/-- The Go struct `ClusterSummaryScopeParams`; `κ` is the type of the clients that are
not nil. -/
structure ClusterSummaryScopeParams (κ : Type) where
  Client : Option κ := none
  Logger : Logger := {}
  ClusterProfile : Option ClusterProfile := none
  ClusterSummary : Option ClusterSummary := none
  ControllerName : String := ""

/-- The function `NewClusterSummaryScope`.  `NewHelper` stands for `patch.NewHelper` of
cluster-api and says whether it fails.  The client, the helper and the logger the Go
scope keeps are read by no method embedded here and are left out of the scope. -/
def NewClusterSummaryScope {κ : Type} (NewHelper : ClusterSummary → κ → Option Error)
    (params : ClusterSummaryScopeParams κ) : Except Error ClusterSummaryScope :=
  match params.Client with
  | none => .error "client is required when creating a ClusterSummaryScope"
  | some client =>
    match params.ClusterSummary with
    | none => .error "failed to generate new scope from nil ClusterSummary"
    | some clusterSummary =>
      match NewHelper clusterSummary client with
      | some err => .error ("failed to init patch helper: " ++ err)
      | none =>
        .ok { ClusterProfile := params.ClusterProfile
              ClusterSummary := clusterSummary
              controllerName := params.ControllerName }

/-- The method `PatchObject`: one call `s.patchHelper.Patch(ctx, s.ClusterSummary)`.
`Patch` stands for the method of the patch helper of cluster-api: from the objects
patched so far and the object handed over it says whether the call fails.  The second
component is the list of objects patched so far, the call included. -/
def ClusterSummaryScope.PatchObject (Patch : List Sveltos.ClusterSummary → Sveltos.ClusterSummary → Option Error)
    (s : ClusterSummaryScope) (patched : List Sveltos.ClusterSummary) :
    Option Error × List Sveltos.ClusterSummary :=
  (Patch patched s.ClusterSummary, patched ++ [s.ClusterSummary])

/-- The method `Close`. -/
def ClusterSummaryScope.Close (Patch : List Sveltos.ClusterSummary → Sveltos.ClusterSummary → Option Error)
    (s : ClusterSummaryScope) (patched : List Sveltos.ClusterSummary) :
    Option Error × List Sveltos.ClusterSummary :=
  s.PatchObject Patch patched

/-- The method `Name`. -/
def ClusterSummaryScope.Name (s : ClusterSummaryScope) : String :=
  s.ClusterSummary.Name

/-- The method `Namespace`. -/
def ClusterSummaryScope.Namespace (s : ClusterSummaryScope) : String :=
  s.ClusterSummary.Namespace

/-- Modelled from the spec: the constant `configv1alpha1.SyncModeOneTime`, declared
outside the embedded files; section 3 names the sync mode `OneTime`. -/
def SyncModeOneTime : SyncMode := "OneTime"

/-- Modelled from the spec: the constant `configv1alpha1.SyncModeContinuous`, declared
outside the embedded files; section 3 names the sync mode `Continuous`. -/
def SyncModeContinuous : SyncMode := "Continuous"

/-- Modelled from the spec: the constant
`configv1alpha1.SyncModeContinuousWithDriftDetection`, declared outside the embedded
files; section 3 names the sync mode `ContinuousWithDriftDetection`. -/
def SyncModeContinuousWithDriftDetection : SyncMode := "ContinuousWithDriftDetection"

/-- Modelled from the spec: the constant `configv1alpha1.SyncModeDryRun`, declared
outside the embedded files; section 3 names the sync mode `DryRun`. -/
def SyncModeDryRun : SyncMode := "DryRun"

/-- The method `IsContinuousSync`. -/
def ClusterSummaryScope.IsContinuousSync (s : ClusterSummaryScope) : Bool :=
  s.ClusterSummary.Spec.ClusterProfileSpec.SyncMode == SyncModeContinuous ||
    s.ClusterSummary.Spec.ClusterProfileSpec.SyncMode == SyncModeContinuousWithDriftDetection

/-- The method `IsOneTimeSync`. -/
def ClusterSummaryScope.IsOneTimeSync (s : ClusterSummaryScope) : Bool :=
  s.ClusterSummary.Spec.ClusterProfileSpec.SyncMode == SyncModeOneTime

/-- The method `IsDryRunSync`. -/
def ClusterSummaryScope.IsDryRunSync (s : ClusterSummaryScope) : Bool :=
  s.ClusterSummary.Spec.ClusterProfileSpec.SyncMode == SyncModeDryRun

/-- A patch helper that reports a conflict on its first call and succeeds on every
later one. -/
def conflictOnce (patched : List ClusterSummary) (_obj : ClusterSummary) : Option Error :=
  if patched.isEmpty then some "the object has been modified" else none

/-- Parameters with a client and the example record, and nothing else set: no cluster
profile, an empty controller name, the zero logger. -/
def bareParams : ClusterSummaryScopeParams Unit :=
  { Client := some (), ClusterSummary := some exampleScope.ClusterSummary }

/-- The Go struct `libsveltosv1alpha1.Resource`, with the fields the test of
`DeployResourceSummaryInstance` sets. -/
structure Resource where
  Name : String := ""
  Namespace : String := ""
  Group : String := ""
  Kind : String := ""
  Version : String := ""
deriving DecidableEq, Repr

/-- The Go struct `libsveltosv1alpha1.ResourceSummary`, as far as the test of
`DeployResourceSummaryInstance` reads it: name, namespace, labels and
`Spec.Resources`. -/
structure ResourceSummary where
  Name : String := ""
  Namespace : String := ""
  Labels : Option Labels := none
  Resources : Option (List Resource) := none
deriving DecidableEq, Repr

/-- The objects of kind `ResourceSummary` a client holds, by namespace and name. -/
abbrev ResourceSummaryStore := List ((String × String) × ResourceSummary)

/-- The call `c.Get` for a `ResourceSummary`, by namespace and name. -/
def getResourceSummary (store : ResourceSummaryStore) (ns name : String) :
    Option ResourceSummary :=
  store.lookup (ns, name)

/-- The store with the object at a key replaced, or added when the key is new. -/
def putResourceSummary (key : String × String) (obj : ResourceSummary) :
    ResourceSummaryStore → ResourceSummaryStore
  | [] => [(key, obj)]
  | (k, v) :: rest =>
    if k = key then (key, obj) :: rest else (k, v) :: putResourceSummary key obj rest

/-- Modelled from the spec: `DeployResourceSummaryInstance`, of which only the test is
among the embedded files.  Section 4.5 makes `Publish(pairingKey, observedResources)`
replace the report of the pairing wholesale, and section 3 says a delivery is not
merged with the previous report; the name, the namespace and the two labels of the
stored object are those the test reads back.  `GetResourceSummaryName`,
`GetResourceSummaryNamespace` and the two label keys are declared outside the embedded
files and are parameters; `clientError` is the outcome of the write of the client, and
a failed write leaves the store as it was. -/
def DeployResourceSummaryInstance (GetResourceSummaryName : String → String → String)
    (GetResourceSummaryNamespace ClusterSummaryLabelName ClusterSummaryLabelNamespace : String)
    (clientError : Option Error) (store : ResourceSummaryStore)
    (resources : Option (List Resource)) (clusterNamespace clusterSummaryName : String) :
    Option Error × ResourceSummaryStore :=
  match clientError with
  | some err => (some err, store)
  | none =>
    let name := GetResourceSummaryName clusterNamespace clusterSummaryName
    (none,
      putResourceSummary (GetResourceSummaryNamespace, name)
        { Name := name
          Namespace := GetResourceSummaryNamespace
          Labels := some [(ClusterSummaryLabelName, clusterSummaryName),
                          (ClusterSummaryLabelNamespace, clusterNamespace)]
          Resources := resources }
        store)

/-- A store that already holds a report of two resources for the pairing
`ns1`/`summary1`, under the name the example naming gives it. -/
def exampleStore : ResourceSummaryStore :=
  [(("projectsveltos", "ns1--summary1"),
    { Name := "ns1--summary1", Namespace := "projectsveltos"
      Labels := some [("name", "summary1"), ("namespace", "ns1")]
      Resources := some [{ Name := "old1", Kind := "ConfigMap", Version := "v1" },
                         { Name := "old2", Kind := "Secret", Version := "v1" }] })]

/-- Modelled from the spec: the constant `configv1alpha1.FeatureStatusProvisioning`,
declared outside the embedded files; section 3 names the status `Provisioning`. -/
def FeatureStatusProvisioning : FeatureStatus := "Provisioning"

/-- Modelled from the spec: the constant `configv1alpha1.FeatureStatusProvisioned`,
declared outside the embedded files; section 3 names the status `Provisioned`. -/
def FeatureStatusProvisioned : FeatureStatus := "Provisioned"

/-- Modelled from the spec: the constant `configv1alpha1.FeatureStatusFailed`, declared
outside the embedded files; section 3 names the status `Failed`. -/
def FeatureStatusFailed : FeatureStatus := "Failed"

/-- Modelled from the spec: the constant `configv1alpha1.FeatureStatusRemoved`, declared
outside the embedded files; section 3 names the status `Removed`. -/
def FeatureStatusRemoved : FeatureStatus := "Removed"

/-- The feature id a mutator call is about. -/
def Mutation.featureID : Mutation → FeatureID
  | .setFeatureStatus f _ _ => f
  | .setFailureReason f _ => f
  | .setFailureMessage f _ => f
  | .setDeployedGroupVersionKind f _ => f
  | .setLastAppliedTime f _ => f

/-- The name of the Go method a mutator call stands for. -/
def Mutation.mutator : Mutation → String
  | .setFeatureStatus _ _ _ => "SetFeatureStatus"
  | .setFailureReason _ _ => "SetFailureReason"
  | .setFailureMessage _ _ => "SetFailureMessage"
  | .setDeployedGroupVersionKind _ _ => "SetDeployedGroupVersionKind"
  | .setLastAppliedTime _ _ => "SetLastAppliedTime"

/-- What a mutator call does to the entry it finds. -/
def Mutation.update : Mutation → FeatureSummary → FeatureSummary
  | .setFeatureStatus _ status hash => fun e => { e with Status := status, Hash := hash }
  | .setFailureReason _ failureReason => fun e => { e with FailureReason := failureReason }
  | .setFailureMessage _ failureMessage => fun e => { e with FailureMessage := failureMessage }
  | .setDeployedGroupVersionKind _ deployed => fun e => updateDeployedGroupVersionKind e deployed
  | .setLastAppliedTime _ lastAppliedTime =>
    fun e => { e with LastAppliedTime := lastAppliedTime }

/-- A `GroupVersionKind` whose kind and version contain no dot; the group may. -/
def GroupVersionKind.wellFormed (gvk : GroupVersionKind) : Prop :=
  '.' ∉ gvk.Kind.data ∧ '.' ∉ gvk.Version.data

/-- The Go struct `ClusterSummaryScope` as a value: its `ClusterSummary` field is a
pointer, which a struct literal can leave nil. -/
structure ScopeStruct where
  ClusterProfile : Option ClusterProfile := none
  ClusterSummary : Option ClusterSummary := none
  controllerName : String := ""
deriving DecidableEq, Repr

/-- The dereference `s.ClusterSummary` every method starts with; on a nil pointer it
panics. -/
def ScopeStruct.deref (p : ScopeStruct) : Option ClusterSummaryScope :=
  match p.ClusterSummary with
  | none => none
  | some clusterSummary =>
    some { ClusterProfile := p.ClusterProfile
           ClusterSummary := clusterSummary
           controllerName := p.controllerName }

/-- The struct whose pointer refers to the record of the scope. -/
def ClusterSummaryScope.toStruct (s : ClusterSummaryScope) : ScopeStruct :=
  { ClusterProfile := s.ClusterProfile
    ClusterSummary := some s.ClusterSummary
    controllerName := s.controllerName }

/-- The function `NewClusterSummaryScope` with the struct it builds: the
`ClusterSummary` pointer of the parameters is stored as it is. -/
def NewClusterSummaryScopeStruct {κ : Type} (NewHelper : ClusterSummary → κ → Option Error)
    (params : ClusterSummaryScopeParams κ) : Except Error ScopeStruct :=
  match params.Client with
  | none => .error "client is required when creating a ClusterSummaryScope"
  | some client =>
    match params.ClusterSummary with
    | none => .error "failed to generate new scope from nil ClusterSummary"
    | some clusterSummary =>
      match NewHelper clusterSummary client with
      | some err => .error ("failed to init patch helper: " ++ err)
      | none =>
        .ok { ClusterProfile := params.ClusterProfile
              ClusterSummary := params.ClusterSummary
              controllerName := params.ControllerName }

/-- The method `SetFeatureStatus` on the struct; `none` is a nil dereference. -/
def ScopeStruct.SetFeatureStatus (p : ScopeStruct) (featureID : FeatureID)
    (status : FeatureStatus) (hash : Option (List (Fin 256))) : Option ScopeStruct :=
  p.deref.map (fun s => (s.SetFeatureStatus featureID status hash).toStruct)

/-- The method `SetFailureMessage` on the struct; `none` is a nil dereference. -/
def ScopeStruct.SetFailureMessage (p : ScopeStruct) (featureID : FeatureID)
    (failureMessage : Option String) : Option ScopeStruct :=
  p.deref.map (fun s => (s.SetFailureMessage featureID failureMessage).toStruct)

/-- The method `SetFailureReason` on the struct; `none` is a nil dereference. -/
def ScopeStruct.SetFailureReason (p : ScopeStruct) (featureID : FeatureID)
    (failureReason : Option String) : Option ScopeStruct :=
  p.deref.map (fun s => (s.SetFailureReason featureID failureReason).toStruct)

/-- The method `SetDeployedGroupVersionKind` on the struct, with a slice of kinds that
may be nil; `none` is a nil dereference. -/
def ScopeStruct.SetDeployedGroupVersionKind (p : ScopeStruct) (featureID : FeatureID)
    (deployed : Option (List GroupVersionKind)) : Option ScopeStruct :=
  p.deref.map
    (fun s => (s.SetDeployedGroupVersionKind featureID (sliceItems deployed)).toStruct)

/-- The method `SetLastAppliedTime` on the struct; `none` is a nil dereference. -/
def ScopeStruct.SetLastAppliedTime (p : ScopeStruct) (featureID : FeatureID)
    (lastAppliedTime : Option Time) : Option ScopeStruct :=
  p.deref.map (fun s => (s.SetLastAppliedTime featureID lastAppliedTime).toStruct)

/-- The method `Name` on the struct; `none` is a nil dereference. -/
def ScopeStruct.Name (p : ScopeStruct) : Option String :=
  p.deref.map (fun s => s.Name)

/-- The method `Namespace` on the struct; `none` is a nil dereference. -/
def ScopeStruct.Namespace (p : ScopeStruct) : Option String :=
  p.deref.map (fun s => s.Namespace)

/-- The method `IsContinuousSync` on the struct; `none` is a nil dereference. -/
def ScopeStruct.IsContinuousSync (p : ScopeStruct) : Option Bool :=
  p.deref.map (fun s => s.IsContinuousSync)

/-- The method `IsOneTimeSync` on the struct; `none` is a nil dereference. -/
def ScopeStruct.IsOneTimeSync (p : ScopeStruct) : Option Bool :=
  p.deref.map (fun s => s.IsOneTimeSync)

/-- The method `IsDryRunSync` on the struct; `none` is a nil dereference. -/
def ScopeStruct.IsDryRunSync (p : ScopeStruct) : Option Bool :=
  p.deref.map (fun s => s.IsDryRunSync)

/-- Parameters with a client and a cluster summary whose `FeatureSummaries` is nil. -/
def emptyParams : ClusterSummaryScopeParams Unit :=
  { Client := some (), ClusterSummary := some {} }

/-! ## The event mappers -/

/-- The filling loop, started at the end of the part already filled, overwrites the
next slots with the requests for the consumers and does not panic when there are
enough slots. -/
theorem fillRequests_append (cs : List ObjectReference) :
    ∀ (pre suf : List Request), cs.length ≤ suf.length →
      fillRequests cs pre.length (pre ++ suf) =
        some (pre ++ cs.map (fun c => requestFor c.Name) ++ suf.drop cs.length) := by
  induction cs with
  | nil => intro pre suf _; simp [fillRequests]
  | cons c cs ih =>
    intro pre suf h
    cases suf with
    | nil => simp at h
    | cons x suf =>
      simp only [List.length_cons, Nat.add_le_add_iff_right] at h
      have hi : pre.length < (pre ++ x :: suf).length := by simp
      have hset : (pre ++ x :: suf).set pre.length (requestFor c.Name) =
          (pre ++ [requestFor c.Name]) ++ suf := by
        simp [List.set_append_right]
      rw [fillRequests, if_pos hi, hset]
      have := ih (pre ++ [requestFor c.Name]) suf h
      simp only [List.length_append, List.length_singleton] at this
      rw [this]
      simp

/-- The requests built from the index are one per recorded policy, in the order of
`Items`. -/
theorem previousRequests_eq (r : ClusterProfileReconciler) (clusterInfo : ObjectReference) :
    previousRequests r clusterInfo =
      some ((r.getClusterMapForEntry clusterInfo).Items.map (fun c => requestFor c.Name)) := by
  have := fillRequests_append (r.getClusterMapForEntry clusterInfo).Items []
    (List.replicate (r.getClusterMapForEntry clusterInfo).Len ({} : Request))
    (by simp [Set.Len, Set.Items])
  simp only [List.length_nil, List.nil_append] at this
  simp only [previousRequests, this]
  simp [Set.Len, Set.Items]

/-- When every selector parses, the loop over the known policies appends one request
per policy whose selector matches, in the order of the iteration. -/
theorem matchingLoop_eq {σ : Type} (Parse : String → Option σ) (Matches : σ → Labels → Bool)
    (labels : Labels) (profiles : List (ObjectReference × String)) :
    (∀ p ∈ profiles, Parse p.2 ≠ none) → ∀ requests : List Request,
      matchingLoop Parse Matches labels profiles requests =
        some (requests ++
          (profiles.filter (fun p => selectorMatches Parse Matches labels p.2)).map
            (fun p => requestFor p.1.Name)) := by
  induction profiles with
  | nil => intro _ requests; simp [matchingLoop]
  | cons p rest ih =>
    intro h requests
    obtain ⟨k, sel⟩ := p
    have hp : Parse sel ≠ none := h (k, sel) (List.mem_cons_self _ _)
    have hrest : ∀ p ∈ rest, Parse p.2 ≠ none := fun p hp => h p (List.mem_cons_of_mem _ hp)
    cases hs : Parse sel with
    | none => exact absurd hs hp
    | some parsedSelector =>
      simp only [matchingLoop, hs]
      by_cases hm : Matches parsedSelector labels = true
      · rw [if_pos hm, ih hrest]
        simp [List.filter_cons, selectorMatches, hs, hm]
      · rw [if_neg hm, ih hrest]
        simp [List.filter_cons, selectorMatches, hs, hm]

/-- When some selector does not parse, the loop over the known policies panics. -/
theorem matchingLoop_none {σ : Type} (Parse : String → Option σ) (Matches : σ → Labels → Bool)
    (labels : Labels) (profiles : List (ObjectReference × String)) :
    (∃ p ∈ profiles, Parse p.2 = none) → ∀ requests : List Request,
      matchingLoop Parse Matches labels profiles requests = none := by
  induction profiles with
  | nil => intro h; simp at h
  | cons p rest ih =>
    intro h requests
    obtain ⟨k, sel⟩ := p
    cases hs : Parse sel with
    | none => simp [matchingLoop, hs]
    | some parsedSelector =>
      have hrest : ∃ p ∈ rest, Parse p.2 = none := by
        obtain ⟨q, hq, hqn⟩ := h
        rcases List.mem_cons.1 hq with rfl | hq
        · simp [hs] at hqn
        · exact ⟨q, hq, hqn⟩
      simp only [matchingLoop, hs]
      split <;> exact ih hrest _

/-- The requests of `requeueClusterProfileForCluster` when every known selector
parses: one per recorded policy, then one per known policy that matches. -/
theorem requeueClusterProfileForCluster_eq {σ : Type} (Parse : String → Option σ)
    (Matches : σ → Labels → Bool) (r : ClusterProfileReconciler) (cluster : ClusterObject)
    (hparse : ∀ p ∈ r.ClusterProfiles, Parse p.2 ≠ none) :
    r.requeueClusterProfileForCluster Parse Matches cluster =
      some ((r.getClusterMapForEntry (clusterInfoOf cluster)).Items.map
          (fun c => requestFor c.Name) ++
        (r.ClusterProfiles.filter
          (fun p => selectorMatches Parse Matches cluster.Labels p.2)).map
          (fun p => requestFor p.1.Name)) := by
  simp only [ClusterProfileReconciler.requeueClusterProfileForCluster, previousRequests_eq]
  exact matchingLoop_eq Parse Matches cluster.Labels r.ClusterProfiles hparse _

/-- A selector string matches when it parses to a selector that matches. -/
theorem selectorMatches_iff {σ : Type} (Parse : String → Option σ)
    (Matches : σ → Labels → Bool) (labels : Labels) (selector : String) :
    selectorMatches Parse Matches labels selector = true ↔
      ∃ parsedSelector, Parse selector = some parsedSelector ∧
        Matches parsedSelector labels = true := by
  unfold selectorMatches
  cases Parse selector <;> simp

/-- C1: when every known selector parses, the policy names carried by the requests
of `requeueClusterProfileForCluster` are exactly the names of the policies the index
records for the cluster together with the names of the known policies whose selector
matches the cluster's labels, and every request has an empty namespace. -/
theorem requeueClusterProfileForCluster_names {σ : Type} (Parse : String → Option σ)
    (Matches : σ → Labels → Bool) (r : ClusterProfileReconciler) (cluster : ClusterObject)
    (hparse : ∀ p ∈ r.ClusterProfiles, Parse p.2 ≠ none) :
    ∃ requests, r.requeueClusterProfileForCluster Parse Matches cluster = some requests ∧
      (∀ name : String, (∃ q ∈ requests, q.NamespacedName.Name = name) ↔
        ((∃ c ∈ (r.getClusterMapForEntry (clusterInfoOf cluster)).Items, c.Name = name) ∨
          (∃ p ∈ r.ClusterProfiles, p.1.Name = name ∧
            ∃ parsedSelector, Parse p.2 = some parsedSelector ∧
              Matches parsedSelector cluster.Labels = true))) ∧
      ∀ q ∈ requests, q.NamespacedName.Namespace = "" := by
  refine ⟨_, requeueClusterProfileForCluster_eq Parse Matches r cluster hparse, ?_, ?_⟩
  · intro name
    constructor
    · rintro ⟨q, hq, rfl⟩
      rcases List.mem_append.1 hq with h | h
      · obtain ⟨c, hc, rfl⟩ := List.mem_map.1 h
        exact Or.inl ⟨c, hc, rfl⟩
      · obtain ⟨p, hp, rfl⟩ := List.mem_map.1 h
        obtain ⟨hp1, hp2⟩ := List.mem_filter.1 hp
        exact Or.inr ⟨p, hp1, rfl, (selectorMatches_iff _ _ _ _).1 hp2⟩
    · rintro (⟨c, hc, rfl⟩ | ⟨p, hp, rfl, hm⟩)
      · exact ⟨requestFor c.Name, List.mem_append_left _ (List.mem_map.2 ⟨c, hc, rfl⟩), rfl⟩
      · exact ⟨requestFor p.1.Name, List.mem_append_right _ (List.mem_map.2
          ⟨p, List.mem_filter.2 ⟨hp, (selectorMatches_iff _ _ _ _).2 hm⟩, rfl⟩), rfl⟩
  · intro q hq
    rcases List.mem_append.1 hq with h | h
    · obtain ⟨c, _, rfl⟩ := List.mem_map.1 h
      rfl
    · obtain ⟨p, _, rfl⟩ := List.mem_map.1 h
      rfl

/-- Witness of C1 at the example reconciler and cluster. -/
theorem requeueClusterProfileForCluster_names_witness :
    (∀ p ∈ exampleReconciler.ClusterProfiles, equalityParse p.2 ≠ none) ∧
    ∃ requests, exampleReconciler.requeueClusterProfileForCluster equalityParse
        equalityMatches exampleCluster = some requests ∧
      (∀ name : String, (∃ q ∈ requests, q.NamespacedName.Name = name) ↔
        ((∃ c ∈ (exampleReconciler.getClusterMapForEntry
            (clusterInfoOf exampleCluster)).Items, c.Name = name) ∨
          (∃ p ∈ exampleReconciler.ClusterProfiles, p.1.Name = name ∧
            ∃ parsedSelector, equalityParse p.2 = some parsedSelector ∧
              equalityMatches parsedSelector exampleCluster.Labels = true))) ∧
      ∀ q ∈ requests, q.NamespacedName.Namespace = "" :=
  ⟨by decide, requeueClusterProfileForCluster_names equalityParse equalityMatches
    exampleReconciler exampleCluster (by decide)⟩

/-- A key that occurs in no pair of an association list is not found by `lookup`. -/
theorem lookup_eq_none_of_not_mem (key : String) (l : List (String × String))
    (h : ∀ v, (key, v) ∉ l) : l.lookup key = none := by
  induction l with
  | nil => rfl
  | cons kv rest ih =>
    obtain ⟨k, v⟩ := kv
    have hk : (key == k) = false := by
      rw [beq_eq_false_iff_ne]
      rintro rfl
      exact h v (List.mem_cons_self _ _)
    rw [List.lookup_cons, hk]
    exact ih (fun v hv => h v (List.mem_cons_of_mem _ hv))

/-- C7: a known policy whose selector string does not parse makes
`requeueClusterProfileForCluster` panic: the parse error is dropped and `Matches` is
called on the nil selector, so no request at all is returned. -/
theorem requeueClusterProfileForCluster_malformed {σ : Type} (Parse : String → Option σ)
    (Matches : σ → Labels → Bool) (r : ClusterProfileReconciler) (cluster : ClusterObject)
    (hbad : ∃ p ∈ r.ClusterProfiles, Parse p.2 = none) :
    r.requeueClusterProfileForCluster Parse Matches cluster = none := by
  simp only [ClusterProfileReconciler.requeueClusterProfileForCluster, previousRequests_eq]
  exact matchingLoop_none Parse Matches cluster.Labels r.ClusterProfiles hbad _

/-- Witness of C7 at the reconciler whose policy `p3` has the selector `=production`:
the call panics, while without `p3` it returns the two requests for `p1`. -/
theorem requeueClusterProfileForCluster_malformed_witness :
    (∃ p ∈ malformedReconciler.ClusterProfiles, equalityParse p.2 = none) ∧
    malformedReconciler.requeueClusterProfileForCluster equalityParse equalityMatches
      exampleCluster = none ∧
    exampleReconciler.requeueClusterProfileForCluster equalityParse equalityMatches
      exampleCluster = some [requestFor "p1", requestFor "p1"] :=
  ⟨by decide, requeueClusterProfileForCluster_malformed equalityParse equalityMatches
    malformedReconciler exampleCluster (by decide), by decide⟩

/-- C8: a machine whose labels do not contain the owning-cluster label yields an empty
work set, whatever the reconciler holds. -/
theorem requeueClusterProfileForMachine_unlabelled (ClusterLabelName : String)
    (r : ClusterProfileReconciler) (machine : Machine)
    (hlabel : ∀ v, (ClusterLabelName, v) ∉ machine.Labels) :
    r.requeueClusterProfileForMachine ClusterLabelName machine = some [] := by
  simp [ClusterProfileReconciler.requeueClusterProfileForMachine,
    lookup_eq_none_of_not_mem ClusterLabelName machine.Labels hlabel]

/-- Witness of C8: the example reconciler and a machine labelled only `zone=a`. -/
theorem requeueClusterProfileForMachine_unlabelled_witness :
    (∀ v, ("cluster.x-k8s.io/cluster-name", v) ∉ unlabelledMachine.Labels) ∧
    exampleReconciler.requeueClusterProfileForMachine "cluster.x-k8s.io/cluster-name"
      unlabelledMachine = some [] :=
  ⟨by simp [unlabelledMachine],
    requeueClusterProfileForMachine_unlabelled "cluster.x-k8s.io/cluster-name"
      exampleReconciler unlabelledMachine (by simp [unlabelledMachine])⟩

/-- When the index records no policy for the cluster and the selector of every known
policy parses to a selector that does not match the cluster's labels,
`requeueClusterProfileForCluster` returns a list of length zero. -/
theorem requeueClusterProfileForCluster_no_match {σ : Type} (Parse : String → Option σ)
    (Matches : σ → Labels → Bool) (r : ClusterProfileReconciler) (cluster : ClusterObject)
    (hindex : (r.getClusterMapForEntry (clusterInfoOf cluster)).Len = 0)
    (hselectors : ∀ p ∈ r.ClusterProfiles, ∃ parsedSelector,
      Parse p.2 = some parsedSelector ∧ Matches parsedSelector cluster.Labels = false) :
    r.requeueClusterProfileForCluster Parse Matches cluster = some [] := by
  have hparse : ∀ p ∈ r.ClusterProfiles, Parse p.2 ≠ none := by
    intro p hp
    obtain ⟨sel, hsel, _⟩ := hselectors p hp
    simp [hsel]
  have hnone : r.ClusterProfiles.filter
      (fun p => selectorMatches Parse Matches cluster.Labels p.2) = [] := by
    rw [List.filter_eq_nil_iff]
    intro p hp
    obtain ⟨sel, hsel, hm⟩ := hselectors p hp
    simp [selectorMatches, hsel, hm]
  have hitems : (r.getClusterMapForEntry (clusterInfoOf cluster)).Items = [] :=
    List.length_eq_zero.1 hindex
  rw [requeueClusterProfileForCluster_eq Parse Matches r cluster hparse, hnone, hitems]
  rfl

/-- The scenario of the test: two policies selecting `env=qa`, a cluster labelled
`env=production` and an empty index give no request. -/
theorem requeueClusterProfileForCluster_no_match_witness :
    (qaReconciler.getClusterMapForEntry (clusterInfoOf exampleCluster)).Len = 0 ∧
    (∀ p ∈ qaReconciler.ClusterProfiles, ∃ parsedSelector,
      equalityParse p.2 = some parsedSelector ∧
        equalityMatches parsedSelector exampleCluster.Labels = false) ∧
    qaReconciler.requeueClusterProfileForCluster equalityParse equalityMatches
      exampleCluster = some [] :=
  ⟨by decide, by decide,
    requeueClusterProfileForCluster_no_match equalityParse equalityMatches qaReconciler
      exampleCluster (by decide) (by decide)⟩

/-- C9 at a state with an unparsable selector: the index records no policy for the
cluster and no known policy has a selector matching its labels, yet
`requeueClusterProfileForCluster` panics instead of returning zero requests. -/
theorem requeueClusterProfileForCluster_no_match_unparsable :
    (unparsableReconciler.getClusterMapForEntry (clusterInfoOf exampleCluster)).Len = 0 ∧
    (∀ p ∈ unparsableReconciler.ClusterProfiles,
      ¬ ∃ parsedSelector, equalityParse p.2 = some parsedSelector ∧
        equalityMatches parsedSelector exampleCluster.Labels = true) ∧
    unparsableReconciler.requeueClusterProfileForCluster equalityParse equalityMatches
      exampleCluster = none :=
  ⟨by decide, by simp [unparsableReconciler, equalityParse], by decide⟩

/-- C10, as stated, fails: policy `p1` is recorded in the index for the cluster and
still matches its labels, and the returned list names it twice. -/
theorem requeueClusterProfileForCluster_duplicate :
    (∃ c ∈ (exampleReconciler.getClusterMapForEntry (clusterInfoOf exampleCluster)).Items,
      c.Name = "p1") ∧
    (∃ p ∈ exampleReconciler.ClusterProfiles, p.1.Name = "p1" ∧
      selectorMatches equalityParse equalityMatches exampleCluster.Labels p.2 = true) ∧
    ∃ requests, exampleReconciler.requeueClusterProfileForCluster equalityParse
        equalityMatches exampleCluster = some requests ∧
      (requests.map (fun q => q.NamespacedName.Name)).count "p1" = 2 ∧
      ¬ (requests.map (fun q => q.NamespacedName.Name)).Nodup :=
  ⟨by decide, by decide, [requestFor "p1", requestFor "p1"], by decide, by decide, by decide⟩

/-- C10, amended: when every known selector parses, the returned list is one request
per policy the index records for the cluster, in the order of `Items`, followed by
one request per known policy whose selector matches the cluster's labels, in the
order of the iteration; a policy name occurs in it as often as in the two parts
together. -/
theorem requeueClusterProfileForCluster_requests {σ : Type} (Parse : String → Option σ)
    (Matches : σ → Labels → Bool) (r : ClusterProfileReconciler) (cluster : ClusterObject)
    (hparse : ∀ p ∈ r.ClusterProfiles, Parse p.2 ≠ none) :
    ∃ requests, r.requeueClusterProfileForCluster Parse Matches cluster = some requests ∧
      requests.map (fun q => q.NamespacedName.Name) =
        (r.getClusterMapForEntry (clusterInfoOf cluster)).Items.map (fun c => c.Name) ++
          (r.ClusterProfiles.filter
            (fun p => selectorMatches Parse Matches cluster.Labels p.2)).map
            (fun p => p.1.Name) ∧
      requests.length = (r.getClusterMapForEntry (clusterInfoOf cluster)).Len +
        (r.ClusterProfiles.filter
          (fun p => selectorMatches Parse Matches cluster.Labels p.2)).length ∧
      ∀ name : String, (requests.map (fun q => q.NamespacedName.Name)).count name =
        ((r.getClusterMapForEntry (clusterInfoOf cluster)).Items.map
            (fun c => c.Name)).count name +
          ((r.ClusterProfiles.filter
            (fun p => selectorMatches Parse Matches cluster.Labels p.2)).map
            (fun p => p.1.Name)).count name := by
  have hnames : ((r.getClusterMapForEntry (clusterInfoOf cluster)).Items.map
          (fun c => requestFor c.Name) ++
        (r.ClusterProfiles.filter
          (fun p => selectorMatches Parse Matches cluster.Labels p.2)).map
          (fun p => requestFor p.1.Name)).map (fun q => q.NamespacedName.Name) =
      (r.getClusterMapForEntry (clusterInfoOf cluster)).Items.map (fun c => c.Name) ++
        (r.ClusterProfiles.filter
          (fun p => selectorMatches Parse Matches cluster.Labels p.2)).map
          (fun p => p.1.Name) := by
    simp [requestFor, Function.comp_def]
  refine ⟨_, requeueClusterProfileForCluster_eq Parse Matches r cluster hparse, hnames, ?_, ?_⟩
  · simp [Set.Len, Set.Items]
  · intro name
    rw [hnames, List.count_append]

/-- Witness of the amended C10 at the example reconciler and cluster. -/
theorem requeueClusterProfileForCluster_requests_witness :
    (∀ p ∈ exampleReconciler.ClusterProfiles, equalityParse p.2 ≠ none) ∧
    ∃ requests, exampleReconciler.requeueClusterProfileForCluster equalityParse
        equalityMatches exampleCluster = some requests ∧
      requests.map (fun q => q.NamespacedName.Name) = ["p1", "p1"] ∧
      requests.length = 2 := by
  refine ⟨by decide, ?_⟩
  obtain ⟨requests, h1, h2, h3, _⟩ :=
    requeueClusterProfileForCluster_requests equalityParse equalityMatches
      exampleReconciler exampleCluster (by decide)
  exact ⟨requests, h1, h2.trans (by decide), h3.trans (by decide)⟩

/-! ## The ClusterSummary scope -/

/-- The first loop copies the recorded keys onto `tmp` and makes them members of
`current`. -/
theorem copyCurrent_eq (recorded : List String) :
    ∀ current tmp : List String,
      (copyCurrent recorded (current, tmp)).2 = tmp ++ recorded ∧
        ∀ x, x ∈ (copyCurrent recorded (current, tmp)).1 ↔ x ∈ current ∨ x ∈ recorded := by
  induction recorded with
  | nil => intro current tmp; simp [copyCurrent]
  | cons k rest ih =>
    intro current tmp
    rw [copyCurrent]
    obtain ⟨h1, h2⟩ := ih (if k ∈ current then current else k :: current) (tmp ++ [k])
    refine ⟨by simp [h1], fun x => ?_⟩
    rw [h2]
    by_cases hk : k ∈ current
    · simp only [if_pos hk, List.mem_cons]
      constructor
      · rintro (h | h)
        · exact Or.inl h
        · exact Or.inr (Or.inr h)
      · rintro (h | h | h)
        · exact Or.inl h
        · exact Or.inl (h ▸ hk)
        · exact Or.inr h
    · simp only [if_neg hk, List.mem_cons]
      tauto

/-- The second loop, in closed form: when `current` and `tmp` have the same members,
the loop appends to `tmp` the first occurrences of the new keys that `tmp` lacks. -/
theorem mergeDeployed_eq (deployed : List GroupVersionKind) :
    ∀ current tmp : List String, (∀ x, x ∈ current ↔ x ∈ tmp) →
      (mergeDeployed deployed (current, tmp)).2 =
        tmp ++ (keepFirst (deployed.map gvkKey)).filter (fun x => decide (x ∉ tmp)) := by
  induction deployed with
  | nil => intro current tmp _; simp [mergeDeployed, keepFirst]
  | cons d rest ih =>
    intro current tmp hmem
    simp only [mergeDeployed, List.map_cons, keepFirst]
    by_cases hk : gvkKey d ∈ current
    · have hkt : gvkKey d ∈ tmp := (hmem _).1 hk
      rw [if_pos hk, ih current tmp hmem, List.filter_cons]
      simp only [hkt, not_true_eq_false, decide_False, Bool.false_eq_true, if_false,
        List.filter_filter]
      congr 1
      apply List.filter_congr
      intro x _
      by_cases hx : x ∈ tmp
      · simp [hx]
      · have : x ≠ gvkKey d := fun h => hx (h ▸ hkt)
        simp [hx, this]
    · have hkt : gvkKey d ∉ tmp := fun h => hk ((hmem _).2 h)
      have hmem2 : ∀ x, x ∈ gvkKey d :: current ↔ x ∈ tmp ++ [gvkKey d] := by
        intro x
        simp only [List.mem_cons, List.mem_append, List.mem_singleton, hmem x]
        tauto
      rw [if_neg hk, ih _ _ hmem2, List.filter_cons]
      simp only [hkt, not_false_eq_true, decide_True, if_true, List.filter_filter,
        List.append_assoc, List.singleton_append]
      congr 2
      apply List.filter_congr
      intro x _
      simp only [List.mem_append, List.mem_singleton, not_or]
      by_cases hx : x ∈ tmp <;> by_cases hxd : x = gvkKey d <;> simp [hx, hxd]

/-- The stored list in closed form: the recorded keys, then the first occurrences of
the observed keys that were not recorded. -/
theorem mergeKeys_eq (recorded : List String) (deployed : List GroupVersionKind) :
    mergeKeys recorded deployed =
      recorded ++ (keepFirst (deployed.map gvkKey)).filter (fun x => decide (x ∉ recorded)) := by
  obtain ⟨h1, h2⟩ := copyCurrent_eq recorded [] []
  have hpair : copyCurrent recorded ([], []) =
      ((copyCurrent recorded ([], [])).1, recorded) := by
    apply Prod.ext
    · rfl
    · simpa using h1
  have hmem2 : ∀ x, x ∈ (copyCurrent recorded ([], [])).1 ↔ x ∈ recorded := by
    intro x
    rw [h2]
    simp
  unfold mergeKeys
  rw [hpair]
  exact mergeDeployed_eq deployed _ _ hmem2

/-- The second loop keeps `current` and `tmp` equal as sets. -/
theorem mergeDeployed_mem (deployed : List GroupVersionKind) :
    ∀ current tmp : List String, (∀ x, x ∈ current ↔ x ∈ tmp) →
      ∀ x, x ∈ (mergeDeployed deployed (current, tmp)).1 ↔
        x ∈ (mergeDeployed deployed (current, tmp)).2 := by
  induction deployed with
  | nil => intro current tmp h; simpa [mergeDeployed] using h
  | cons d rest ih =>
    intro current tmp hmem
    simp only [mergeDeployed]
    by_cases hk : gvkKey d ∈ current
    · rw [if_pos hk]
      exact ih current tmp hmem
    · rw [if_neg hk]
      apply ih
      intro x
      simp only [List.mem_cons, List.mem_append, List.mem_singleton, hmem x]
      tauto

/-- Running the second loop over a concatenation is running it over the parts in
turn. -/
theorem mergeDeployed_append (first second : List GroupVersionKind) :
    ∀ st : List String × List String,
      mergeDeployed (first ++ second) st = mergeDeployed second (mergeDeployed first st) := by
  induction first with
  | nil => intro st; obtain ⟨c, t⟩ := st; simp [mergeDeployed]
  | cons d rest ih =>
    intro st
    obtain ⟨c, t⟩ := st
    simp only [List.cons_append, mergeDeployed]
    split <;> exact ih _

/-- Two calls in a row store what one call with the concatenated observation stores. -/
theorem mergeKeys_append (recorded : List String) (first second : List GroupVersionKind) :
    mergeKeys (mergeKeys recorded first) second = mergeKeys recorded (first ++ second) := by
  rw [mergeKeys_eq (mergeKeys recorded first) second]
  obtain ⟨h1, h2⟩ := copyCurrent_eq recorded [] []
  have hmem : ∀ x, x ∈ (mergeDeployed first (copyCurrent recorded ([], []))).1 ↔
      x ∈ (mergeDeployed first (copyCurrent recorded ([], []))).2 := by
    have hpair : copyCurrent recorded ([], []) =
        ((copyCurrent recorded ([], [])).1, (copyCurrent recorded ([], [])).2) := rfl
    rw [hpair]
    apply mergeDeployed_mem
    intro x
    rw [h1, h2]
    simp
  have hpair2 : mergeDeployed first (copyCurrent recorded ([], [])) =
      ((mergeDeployed first (copyCurrent recorded ([], []))).1, mergeKeys recorded first) := rfl
  unfold mergeKeys at hpair2 ⊢
  rw [mergeDeployed_append, hpair2]
  exact (mergeDeployed_eq second _ _ hmem).symm

/-- With nothing recorded, the stored list is the observed keys in order of first
appearance. -/
theorem mergeKeys_nil_left (deployed : List GroupVersionKind) :
    mergeKeys [] deployed = keepFirst (deployed.map gvkKey) := by
  rw [mergeKeys_eq]
  simp

/-- With nothing observed, the recorded list is stored unchanged. -/
theorem mergeKeys_nil_right (recorded : List String) : mergeKeys recorded [] = recorded := by
  rw [mergeKeys_eq]
  simp [keepFirst]

/-- Merging the same observation a second time adds nothing. -/
theorem mergeKeys_idem (recorded : List String) (deployed : List GroupVersionKind) :
    mergeKeys (mergeKeys recorded deployed) deployed = mergeKeys recorded deployed := by
  rw [mergeKeys_eq (mergeKeys recorded deployed) deployed]
  have hnil : (keepFirst (deployed.map gvkKey)).filter
      (fun x => decide (x ∉ mergeKeys recorded deployed)) = [] := by
    rw [List.filter_eq_nil_iff]
    intro x hx
    rw [mergeKeys_eq]
    by_cases hr : x ∈ recorded
    · simp [hr]
    · simp [hr, hx]
  rw [hnil, List.append_nil]

/-- Reading the entries back after the slice was replaced. -/
@[simp]
theorem summaries_withFeatureSummaries (s : ClusterSummaryScope)
    (l : List FeatureSummary) : (s.withFeatureSummaries (some l)).summaries = l := rfl

/-- Replacing the slice twice keeps the second value. -/
@[simp]
theorem withFeatureSummaries_withFeatureSummaries (s : ClusterSummaryScope)
    (l l2 : Option (List FeatureSummary)) :
    (s.withFeatureSummaries l).withFeatureSummaries l2 = s.withFeatureSummaries l2 := rfl

/-- Appending after `initializeFeatureStatusSummary` stores the old entries followed
by the new one, whether the slice was nil or not. -/
theorem initialize_appendSummary (s : ClusterSummaryScope) (e : FeatureSummary) :
    s.initializeFeatureStatusSummary.appendSummary e =
      s.withFeatureSummaries (some (s.summaries ++ [e])) := by
  obtain ⟨cp, ⟨n, ns, spec, ⟨l⟩⟩, cn⟩ := s
  cases l <;> rfl

/-- The opening loop falls through when no entry has the feature id. -/
theorem updateFirst_eq_none (featureID : FeatureID) (upd : FeatureSummary → FeatureSummary)
    (l : List FeatureSummary) (h : ∀ e ∈ l, e.FeatureID ≠ featureID) :
    updateFirst featureID upd l = none := by
  induction l with
  | nil => rfl
  | cons e rest ih =>
    rw [updateFirst, if_neg (h e (List.mem_cons_self _ _)),
      ih (fun x hx => h x (List.mem_cons_of_mem _ hx))]
    rfl

/-- The opening loop rewrites the first entry with the feature id and nothing else. -/
theorem updateFirst_split (featureID : FeatureID) (upd : FeatureSummary → FeatureSummary)
    (pre : List FeatureSummary) (e : FeatureSummary) (suf : List FeatureSummary)
    (hpre : ∀ x ∈ pre, x.FeatureID ≠ featureID) (he : e.FeatureID = featureID) :
    updateFirst featureID upd (pre ++ e :: suf) = some (pre ++ upd e :: suf) := by
  induction pre with
  | nil => simp [updateFirst, he]
  | cons x rest ih =>
    rw [List.cons_append, updateFirst, if_neg (hpre x (List.mem_cons_self _ _)),
      ih (fun y hy => hpre y (List.mem_cons_of_mem _ hy))]
    rfl

/-- A list with an entry for the feature id splits at the first such entry. -/
theorem exists_first_entry (featureID : FeatureID) (l : List FeatureSummary)
    (h : ∃ e ∈ l, e.FeatureID = featureID) :
    ∃ pre e suf, l = pre ++ e :: suf ∧ (∀ x ∈ pre, x.FeatureID ≠ featureID) ∧
      e.FeatureID = featureID := by
  induction l with
  | nil => simp at h
  | cons x rest ih =>
    by_cases hx : x.FeatureID = featureID
    · exact ⟨[], x, rest, rfl, by simp, hx⟩
    · have hrest : ∃ e ∈ rest, e.FeatureID = featureID := by
        obtain ⟨e, he, hef⟩ := h
        rcases List.mem_cons.1 he with rfl | he
        · exact absurd hef hx
        · exact ⟨e, he, hef⟩
      obtain ⟨pre, e, suf, hl, hpre, he⟩ := ih hrest
      refine ⟨x :: pre, e, suf, by simp [hl], ?_, he⟩
      intro y hy
      rcases List.mem_cons.1 hy with rfl | hy
      · exact hx
      · exact hpre y hy

/-- The first entry with the feature id, found through a split. -/
theorem find_split (featureID : FeatureID) (pre : List FeatureSummary) (e : FeatureSummary)
    (suf : List FeatureSummary) (hpre : ∀ x ∈ pre, x.FeatureID ≠ featureID)
    (he : e.FeatureID = featureID) :
    (pre ++ e :: suf).find? (fun x => decide (x.FeatureID = featureID)) = some e := by
  induction pre with
  | nil => simp [he]
  | cons x rest ih =>
    rw [List.cons_append, List.find?_cons_of_neg _ (by simpa using hpre x (List.mem_cons_self _ _))]
    exact ih (fun y hy => hpre y (List.mem_cons_of_mem _ hy))

/-- No entry with the feature id is found in a list without one. -/
theorem find_eq_none (featureID : FeatureID) (l : List FeatureSummary)
    (h : ∀ e ∈ l, e.FeatureID ≠ featureID) :
    l.find? (fun x => decide (x.FeatureID = featureID)) = none := by
  rw [List.find?_eq_none]
  intro x hx
  simpa using h x hx

/-- The record `SetFeatureStatus` leaves when the feature has an entry. -/
theorem SetFeatureStatus_present (s : ClusterSummaryScope) (featureID : FeatureID)
    (status : FeatureStatus) (hash : Option (List (Fin 256)))
    (pre : List FeatureSummary) (e : FeatureSummary) (suf : List FeatureSummary)
    (hl : s.summaries = pre ++ e :: suf) (hpre : ∀ x ∈ pre, x.FeatureID ≠ featureID)
    (he : e.FeatureID = featureID) :
    s.SetFeatureStatus featureID status hash =
      s.withFeatureSummaries (some (pre ++ { e with Status := status, Hash := hash } :: suf)) := by
  unfold ClusterSummaryScope.SetFeatureStatus
  rw [hl, updateFirst_split featureID _ pre e suf hpre he]

/-- The record `SetFeatureStatus` leaves when the feature has no entry. -/
theorem SetFeatureStatus_absent (s : ClusterSummaryScope) (featureID : FeatureID)
    (status : FeatureStatus) (hash : Option (List (Fin 256)))
    (h : ∀ e ∈ s.summaries, e.FeatureID ≠ featureID) :
    s.SetFeatureStatus featureID status hash =
      s.withFeatureSummaries (some (s.summaries ++
        [{ FeatureID := featureID, Status := status, Hash := hash }])) := by
  unfold ClusterSummaryScope.SetFeatureStatus
  rw [updateFirst_eq_none featureID _ _ h]
  exact initialize_appendSummary s _

/-- The entry `updateDeployedGroupVersionKind` leaves, in terms of `mergeKeys`. -/
theorem updateDeployedGroupVersionKind_eq (fs : FeatureSummary)
    (deployed : List GroupVersionKind) :
    updateDeployedGroupVersionKind fs deployed =
      { fs with
        DeployedGroupVersionKind :=
          some (mergeKeys (sliceItems fs.DeployedGroupVersionKind) deployed) } := rfl

/-- The record `SetDeployedGroupVersionKind` leaves when the feature has an entry. -/
theorem SetDeployedGroupVersionKind_present (s : ClusterSummaryScope) (featureID : FeatureID)
    (deployed : List GroupVersionKind)
    (pre : List FeatureSummary) (e : FeatureSummary) (suf : List FeatureSummary)
    (hl : s.summaries = pre ++ e :: suf) (hpre : ∀ x ∈ pre, x.FeatureID ≠ featureID)
    (he : e.FeatureID = featureID) :
    s.SetDeployedGroupVersionKind featureID deployed =
      s.withFeatureSummaries
        (some (pre ++ updateDeployedGroupVersionKind e deployed :: suf)) := by
  unfold ClusterSummaryScope.SetDeployedGroupVersionKind
  rw [hl, updateFirst_split featureID _ pre e suf hpre he]

/-- The record `SetDeployedGroupVersionKind` leaves when the feature has no entry:
the appended entry is found by the second loop and updated. -/
theorem SetDeployedGroupVersionKind_absent (s : ClusterSummaryScope) (featureID : FeatureID)
    (deployed : List GroupVersionKind)
    (h : ∀ e ∈ s.summaries, e.FeatureID ≠ featureID) :
    s.SetDeployedGroupVersionKind featureID deployed =
      s.withFeatureSummaries (some (s.summaries ++
        [updateDeployedGroupVersionKind { FeatureID := featureID } deployed])) := by
  unfold ClusterSummaryScope.SetDeployedGroupVersionKind
  rw [updateFirst_eq_none featureID _ _ h]
  simp only [initialize_appendSummary, summaries_withFeatureSummaries,
    updateFirst_split featureID _ s.summaries { FeatureID := featureID } [] h rfl,
    withFeatureSummaries_withFeatureSummaries]

/-- `SetFeatureStatus` leaves one entry for the feature if there was none, and as many
as before otherwise. -/
theorem entriesFor_SetFeatureStatus (s : ClusterSummaryScope) (featureID : FeatureID)
    (status : FeatureStatus) (hash : Option (List (Fin 256))) :
    (s.SetFeatureStatus featureID status hash).entriesFor featureID =
      max 1 (s.entriesFor featureID) := by
  by_cases h : ∃ e ∈ s.summaries, e.FeatureID = featureID
  · obtain ⟨pre, e, suf, hl, hpre, he⟩ := exists_first_entry featureID s.summaries h
    rw [SetFeatureStatus_present s featureID status hash pre e suf hl hpre he]
    simp only [ClusterSummaryScope.entriesFor, summaries_withFeatureSummaries, hl,
      List.countP_append, List.countP_cons, he, decide_True, if_true]
    omega
  · have habs : ∀ e ∈ s.summaries, e.FeatureID ≠ featureID := fun e he hf => h ⟨e, he, hf⟩
    have hzero : s.entriesFor featureID = 0 := by
      unfold ClusterSummaryScope.entriesFor
      rw [List.countP_eq_zero]
      intro e he
      simpa using habs e he
    rw [SetFeatureStatus_absent s featureID status hash habs, hzero]
    unfold ClusterSummaryScope.entriesFor at hzero ⊢
    simp [List.countP_append, hzero]

/-- Pairwise distinct feature ids leave at most one entry for each. -/
theorem entriesFor_le_one (s : ClusterSummaryScope) (featureID : FeatureID)
    (huniq : (s.summaries.map (fun e => e.FeatureID)).Nodup) :
    s.entriesFor featureID ≤ 1 := by
  unfold ClusterSummaryScope.entriesFor
  generalize s.summaries = l at huniq
  induction l with
  | nil => simp
  | cons e rest ih =>
    rw [List.map_cons, List.nodup_cons] at huniq
    rw [List.countP_cons]
    by_cases he : e.FeatureID = featureID
    · have hrest : List.countP (fun e => decide (e.FeatureID = featureID)) rest = 0 := by
        rw [List.countP_eq_zero]
        intro x hx
        have : x.FeatureID ≠ featureID := by
          intro hxf
          exact huniq.1 (List.mem_map.2 ⟨x, hx, hxf.trans he.symm⟩)
        simpa using this
      simp [he, hrest]
    · have := ih huniq.2
      simp [he, this]

/-- Calls of `SetFeatureStatus` for one feature, at least one of them, on a record
with at most one entry for it, leave exactly one. -/
theorem entriesFor_setFeatureStatusAll (featureID : FeatureID)
    (calls : List (FeatureStatus × Option (List (Fin 256)))) :
    ∀ s : ClusterSummaryScope, s.entriesFor featureID ≤ 1 → 1 ≤ calls.length →
      (setFeatureStatusAll s featureID calls).entriesFor featureID = 1 := by
  induction calls with
  | nil => intro s _ h; simp at h
  | cons call rest ih =>
    intro s hs _
    have h1 : (s.SetFeatureStatus featureID call.1 call.2).entriesFor featureID = 1 := by
      rw [entriesFor_SetFeatureStatus]
      omega
    cases rest with
    | nil => simpa [setFeatureStatusAll] using h1
    | cons call2 rest2 =>
      have := ih (s.SetFeatureStatus featureID call.1 call.2) (by omega) (by simp)
      simpa [setFeatureStatusAll] using this

/-- C2: on a record with at most one entry per feature id, after `n ≥ 1` calls of
`SetFeatureStatus` with feature id `f`, with any statuses and hashes, exactly one
entry has feature id `f`. -/
theorem SetFeatureStatus_one_entry (s : ClusterSummaryScope) (featureID : FeatureID)
    (calls : List (FeatureStatus × Option (List (Fin 256))))
    (huniq : (s.summaries.map (fun e => e.FeatureID)).Nodup) (hn : 1 ≤ calls.length) :
    ((setFeatureStatusAll s featureID calls).summaries.filter
      (fun e => decide (e.FeatureID = featureID))).length = 1 := by
  have := entriesFor_setFeatureStatusAll featureID calls s
    (entriesFor_le_one s featureID huniq) hn
  rwa [ClusterSummaryScope.entriesFor, List.countP_eq_length_filter] at this

/-- Witness of C2: three calls for `Helm` on the example record, and two calls for the
new feature `Kustomize` on the freshly initialised record. -/
theorem SetFeatureStatus_one_entry_witness :
    ((exampleScope.summaries.map (fun e => e.FeatureID)).Nodup ∧
      ((setFeatureStatusAll exampleScope "Helm"
        [("Provisioning", none), ("Failed", some [7]), ("Provisioned", some [9])]).summaries.filter
          (fun e => decide (e.FeatureID = "Helm"))).length = 1) ∧
    ((setFeatureStatusAll {} "Kustomize"
        [("Provisioning", none), ("Provisioned", some [3])]).summaries.filter
          (fun e => decide (e.FeatureID = "Kustomize"))).length = 1 :=
  ⟨⟨by decide, SetFeatureStatus_one_entry exampleScope "Helm"
      [("Provisioning", none), ("Failed", some [7]), ("Provisioned", some [9])]
      (by decide) (by decide)⟩,
    SetFeatureStatus_one_entry {} "Kustomize"
      [("Provisioning", none), ("Provisioned", some [3])] (by decide) (by decide)⟩

/-- C3: calling `SetDeployedGroupVersionKind(f, K)` twice in a row yields the same
record as calling it once, for every record, feature id and list. -/
theorem SetDeployedGroupVersionKind_idem (s : ClusterSummaryScope) (featureID : FeatureID)
    (deployed : List GroupVersionKind) :
    (s.SetDeployedGroupVersionKind featureID deployed).SetDeployedGroupVersionKind
      featureID deployed = s.SetDeployedGroupVersionKind featureID deployed := by
  have hidem : ∀ e : FeatureSummary,
      updateDeployedGroupVersionKind (updateDeployedGroupVersionKind e deployed) deployed =
        updateDeployedGroupVersionKind e deployed := by
    intro e
    simp [updateDeployedGroupVersionKind_eq, sliceItems, mergeKeys_idem]
  by_cases h : ∃ e ∈ s.summaries, e.FeatureID = featureID
  · obtain ⟨pre, e, suf, hl, hpre, he⟩ := exists_first_entry featureID s.summaries h
    rw [SetDeployedGroupVersionKind_present s featureID deployed pre e suf hl hpre he,
      SetDeployedGroupVersionKind_present
        (s.withFeatureSummaries (some (pre ++ updateDeployedGroupVersionKind e deployed :: suf)))
        featureID deployed pre (updateDeployedGroupVersionKind e deployed) suf rfl hpre he,
      hidem]
    rfl
  · have habs : ∀ e ∈ s.summaries, e.FeatureID ≠ featureID := fun e he hf => h ⟨e, he, hf⟩
    rw [SetDeployedGroupVersionKind_absent s featureID deployed habs,
      SetDeployedGroupVersionKind_present
        (s.withFeatureSummaries (some (s.summaries ++
          [updateDeployedGroupVersionKind { FeatureID := featureID } deployed])))
        featureID deployed s.summaries
        (updateDeployedGroupVersionKind { FeatureID := featureID } deployed) [] rfl habs rfl,
      hidem]
    rfl

/-- The deployed list of a feature after `SetDeployedGroupVersionKind` is the merge of
the list recorded before with the observed kinds. -/
theorem deployedOf_SetDeployedGroupVersionKind (s : ClusterSummaryScope)
    (featureID : FeatureID) (deployed : List GroupVersionKind) :
    (s.SetDeployedGroupVersionKind featureID deployed).deployedOf featureID =
      mergeKeys (s.deployedOf featureID) deployed := by
  by_cases h : ∃ e ∈ s.summaries, e.FeatureID = featureID
  · obtain ⟨pre, e, suf, hl, hpre, he⟩ := exists_first_entry featureID s.summaries h
    rw [SetDeployedGroupVersionKind_present s featureID deployed pre e suf hl hpre he]
    unfold ClusterSummaryScope.deployedOf
    rw [summaries_withFeatureSummaries, hl,
      find_split featureID pre (updateDeployedGroupVersionKind e deployed) suf hpre he,
      find_split featureID pre e suf hpre he]
    rfl
  · have habs : ∀ e ∈ s.summaries, e.FeatureID ≠ featureID := fun e he hf => h ⟨e, he, hf⟩
    rw [SetDeployedGroupVersionKind_absent s featureID deployed habs]
    unfold ClusterSummaryScope.deployedOf
    rw [summaries_withFeatureSummaries, find_eq_none featureID s.summaries habs,
      find_split featureID s.summaries
        (updateDeployedGroupVersionKind { FeatureID := featureID } deployed) [] habs rfl]
    rfl

/-- The deployed list of a feature after a run of `SetDeployedGroupVersionKind` calls
is the merge of the list recorded before with all the observations in order. -/
theorem deployedOf_setDeployedAll (featureID : FeatureID)
    (calls : List (List GroupVersionKind)) :
    ∀ s : ClusterSummaryScope, (setDeployedAll s featureID calls).deployedOf featureID =
      mergeKeys (s.deployedOf featureID) calls.flatten := by
  induction calls with
  | nil => intro s; simp [setDeployedAll, mergeKeys_nil_right]
  | cons deployed rest ih =>
    intro s
    have := ih (s.SetDeployedGroupVersionKind featureID deployed)
    rw [deployedOf_SetDeployedGroupVersionKind, mergeKeys_append] at this
    simpa [setDeployedAll] using this

/-- C4: starting from a record in which feature `f` has no entry or an empty deployed
list, after `SetDeployedGroupVersionKind(f, K1)`, ..., `SetDeployedGroupVersionKind(f, Kn)`
the deployed list of `f` is the keys of `K1 ++ ... ++ Kn` in order of first
appearance, each exactly once. -/
theorem SetDeployedGroupVersionKind_first_appearance (s : ClusterSummaryScope)
    (featureID : FeatureID) (calls : List (List GroupVersionKind))
    (hempty : s.deployedOf featureID = []) :
    (setDeployedAll s featureID calls).deployedOf featureID =
      keepFirst (calls.flatten.map gvkKey) := by
  rw [deployedOf_setDeployedAll, hempty, mergeKeys_nil_left]

/-- Witness of C4: three overlapping observations for `Resources`, which has an entry
without deployed kinds in the example record. -/
theorem SetDeployedGroupVersionKind_first_appearance_witness :
    exampleScope.deployedOf "Resources" = [] ∧
    (setDeployedAll exampleScope "Resources"
      [[{ Version := "v1", Kind := "ConfigMap" }, { Version := "v1", Kind := "Secret" }],
       [{ Version := "v1", Kind := "Secret" }, { Group := "apps", Version := "v1", Kind := "Deployment" },
        { Version := "v1", Kind := "ConfigMap" }],
       []]).deployedOf "Resources" = ["ConfigMap.v1.", "Secret.v1.", "Deployment.v1.apps"] :=
  ⟨by decide,
    (SetDeployedGroupVersionKind_first_appearance exampleScope "Resources"
      [[{ Version := "v1", Kind := "ConfigMap" }, { Version := "v1", Kind := "Secret" }],
       [{ Version := "v1", Kind := "Secret" }, { Group := "apps", Version := "v1", Kind := "Deployment" },
        { Version := "v1", Kind := "ConfigMap" }],
       []] (by decide)).trans (by decide)⟩

/-- C5: when feature `f` has an entry with deployed list `L`, after
`SetDeployedGroupVersionKind(f, K)` the deployed list of `f` is `L` followed by the
newly added keys: no recorded key is removed or moved, whatever `K` is. -/
theorem SetDeployedGroupVersionKind_keeps_recorded (s : ClusterSummaryScope)
    (featureID : FeatureID) (deployed : List GroupVersionKind) (e : FeatureSummary)
    (hentry : s.summaries.find? (fun x => decide (x.FeatureID = featureID)) = some e) :
    ∃ added, (s.SetDeployedGroupVersionKind featureID deployed).deployedOf featureID =
      sliceItems e.DeployedGroupVersionKind ++ added := by
  refine ⟨(keepFirst (deployed.map gvkKey)).filter
    (fun x => decide (x ∉ sliceItems e.DeployedGroupVersionKind)), ?_⟩
  have hL : s.deployedOf featureID = sliceItems e.DeployedGroupVersionKind := by
    simp [ClusterSummaryScope.deployedOf, hentry]
  rw [deployedOf_SetDeployedGroupVersionKind, hL, mergeKeys_eq]

/-- Witness of C5: `Helm` has `Deployment.v1.apps` recorded; an observation without it
and an empty observation both keep it in front. -/
theorem SetDeployedGroupVersionKind_keeps_recorded_witness :
    exampleScope.summaries.find? (fun x => decide (x.FeatureID = "Helm")) =
      some { FeatureID := "Helm", Status := "Provisioned", Hash := some [1, 2]
             DeployedGroupVersionKind := some ["Deployment.v1.apps"] } ∧
    (∃ added, (exampleScope.SetDeployedGroupVersionKind "Helm"
        [{ Version := "v1", Kind := "Service" }]).deployedOf "Helm" =
      ["Deployment.v1.apps"] ++ added) ∧
    (exampleScope.SetDeployedGroupVersionKind "Helm"
        [{ Version := "v1", Kind := "Service" }]).deployedOf "Helm" =
      ["Deployment.v1.apps", "Service.v1."] ∧
    (exampleScope.SetDeployedGroupVersionKind "Helm" []).deployedOf "Helm" =
      ["Deployment.v1.apps"] :=
  ⟨by decide,
    SetDeployedGroupVersionKind_keeps_recorded exampleScope "Helm"
      [{ Version := "v1", Kind := "Service" }]
      { FeatureID := "Helm", Status := "Provisioned", Hash := some [1, 2]
        DeployedGroupVersionKind := some ["Deployment.v1.apps"] } (by decide),
    by decide, by decide⟩

/-- C6: if some entry has feature id `f`, `SetFeatureStatus(f, s, h)` leaves the length
of the sequence unchanged and the first entry for `f` afterwards has status `s` and
hash `h`; if none has, the new sequence is the old one followed by one entry with
feature id `f`, status `s`, hash `h` and every other field unset. -/
theorem SetFeatureStatus_overwrites_or_appends (s : ClusterSummaryScope)
    (featureID : FeatureID) (status : FeatureStatus) (hash : Option (List (Fin 256))) :
    ((∃ e ∈ s.summaries, e.FeatureID = featureID) →
      (s.SetFeatureStatus featureID status hash).summaries.length = s.summaries.length ∧
      ∃ e, (s.SetFeatureStatus featureID status hash).summaries.find?
          (fun x => decide (x.FeatureID = featureID)) = some e ∧
        e.Status = status ∧ e.Hash = hash) ∧
    ((∀ e ∈ s.summaries, e.FeatureID ≠ featureID) →
      (s.SetFeatureStatus featureID status hash).ClusterSummary.Status.FeatureSummaries =
        some (s.summaries ++
          [{ FeatureID := featureID, Hash := hash, Status := status, FailureReason := none,
             FailureMessage := none, DeployedGroupVersionKind := none,
             LastAppliedTime := none }])) := by
  constructor
  · intro h
    obtain ⟨pre, e, suf, hl, hpre, he⟩ := exists_first_entry featureID s.summaries h
    rw [SetFeatureStatus_present s featureID status hash pre e suf hl hpre he,
      summaries_withFeatureSummaries, hl]
    refine ⟨by simp, { e with Status := status, Hash := hash }, ?_, rfl, rfl⟩
    exact find_split featureID pre { e with Status := status, Hash := hash } suf hpre he
  · intro habs
    rw [SetFeatureStatus_absent s featureID status hash habs]
    rfl

/-- Witness of C6: `Resources` has an entry in the example record and is overwritten;
`Kustomize` has none and is appended. -/
theorem SetFeatureStatus_overwrites_or_appends_witness :
    ((∃ e ∈ exampleScope.summaries, e.FeatureID = "Resources") ∧
      (exampleScope.SetFeatureStatus "Resources" "Provisioned" (some [5])).summaries.length =
        exampleScope.summaries.length ∧
      ∃ e, (exampleScope.SetFeatureStatus "Resources" "Provisioned" (some [5])).summaries.find?
          (fun x => decide (x.FeatureID = "Resources")) = some e ∧
        e.Status = "Provisioned" ∧ e.Hash = some [5]) ∧
    ((∀ e ∈ exampleScope.summaries, e.FeatureID ≠ "Kustomize") ∧
      (exampleScope.SetFeatureStatus "Kustomize" "Provisioning"
          none).ClusterSummary.Status.FeatureSummaries =
        some (exampleScope.summaries ++
          [{ FeatureID := "Kustomize", Hash := none, Status := "Provisioning",
             FailureReason := none, FailureMessage := none,
             DeployedGroupVersionKind := none, LastAppliedTime := none }])) :=
  ⟨⟨by decide,
      (SetFeatureStatus_overwrites_or_appends exampleScope "Resources" "Provisioned"
        (some [5])).1 (by decide)⟩,
    ⟨by decide,
      (SetFeatureStatus_overwrites_or_appends exampleScope "Kustomize" "Provisioning"
        none).2 (by decide)⟩⟩

/-! ## The match index under the event mappers -/

/-- A helper that only reads the index keeps the contract of a lookup. -/
theorem readOnlyGetter_isLookup : isLookup readOnlyGetter := by
  intro r entry
  exact ⟨rfl, fun _ => rfl, rfl, rfl⟩

/-- Adding an empty set for a key changes no lookup. -/
theorem lookupSet_append_empty (m : List (ObjectReference × Set)) (entry cluster : ObjectReference) :
    lookupSet (m ++ [(entry, ({} : Set))]) cluster = lookupSet m cluster := by
  unfold lookupSet
  rw [List.lookup_append]
  cases h : m.lookup cluster with
  | some s => rfl
  | none =>
    by_cases hk : cluster = entry
    · subst hk
      simp [List.lookup]
    · have : (cluster == entry) = false := by simpa using hk
      simp [List.lookup, this]

/-- A helper that stores an empty set for an unknown cluster keeps the contract of a
lookup. -/
theorem getOrCreateGetter_isLookup : isLookup getOrCreateGetter := by
  intro r entry
  unfold getOrCreateGetter
  cases h : r.ClusterMap.lookup entry with
  | some s => exact ⟨by simp [lookupSet, h], fun _ => rfl, rfl, rfl⟩
  | none =>
    refine ⟨by simp [lookupSet, h], fun cluster => ?_, rfl, rfl⟩
    exact lookupSet_append_empty r.ClusterMap entry cluster

/-- With a helper that keeps the contract of a lookup the mapper for clusters returns
the requests of `requeueClusterProfileForCluster`. -/
theorem runRequeueClusterProfileForCluster_requests {σ : Type} (get : ClusterMapGetter)
    (hget : isLookup get) (Parse : String → Option σ) (Matches : σ → Labels → Bool)
    (r : ClusterProfileReconciler) (cluster : ClusterObject) :
    (r.runRequeueClusterProfileForCluster get Parse Matches cluster).1 =
      r.requeueClusterProfileForCluster Parse Matches cluster := by
  obtain ⟨h1, h2, _, _⟩ := hget r (clusterInfoOf cluster)
  obtain ⟨k1, _, _, k4⟩ := hget (get r (clusterInfoOf cluster)).2 (clusterInfoOf cluster)
  have hfirst : (get r (clusterInfoOf cluster)).1 =
      r.getClusterMapForEntry (clusterInfoOf cluster) := h1
  have hsecond : (get (get r (clusterInfoOf cluster)).2 (clusterInfoOf cluster)).1 =
      r.getClusterMapForEntry (clusterInfoOf cluster) := by
    rw [k1, h2]
    rfl
  have hprofiles : (get (get r (clusterInfoOf cluster)).2 (clusterInfoOf cluster)).2.ClusterProfiles =
      r.ClusterProfiles := by
    rw [k4]
    exact (hget r (clusterInfoOf cluster)).2.2.2
  simp only [ClusterProfileReconciler.runRequeueClusterProfileForCluster,
    ClusterProfileReconciler.requeueClusterProfileForCluster, previousRequests, hfirst,
    hsecond, hprofiles]
  cases fillRequests (r.getClusterMapForEntry (clusterInfoOf cluster)).Items 0
      (List.replicate (r.getClusterMapForEntry (clusterInfoOf cluster)).Len ({} : Request)) <;> rfl

/-- The reconciler the mapper for clusters leaves behind is the one the second call of
the helper leaves. -/
theorem runRequeueClusterProfileForCluster_state {σ : Type} (get : ClusterMapGetter)
    (Parse : String → Option σ) (Matches : σ → Labels → Bool)
    (r : ClusterProfileReconciler) (cluster : ClusterObject) :
    (r.runRequeueClusterProfileForCluster get Parse Matches cluster).2 =
      (get (get r (clusterInfoOf cluster)).2 (clusterInfoOf cluster)).2 := by
  simp only [ClusterProfileReconciler.runRequeueClusterProfileForCluster]
  split <;> rfl

/-- Two calls of a helper that keeps the contract of a lookup change no lookup in
either half of the index. -/
theorem isLookup_twice (get : ClusterMapGetter) (hget : isLookup get)
    (r : ClusterProfileReconciler) (entry : ObjectReference) :
    (∀ cluster, lookupSet (get (get r entry).2 entry).2.ClusterMap cluster =
      lookupSet r.ClusterMap cluster) ∧
    (get (get r entry).2 entry).2.ClusterProfileMap = r.ClusterProfileMap := by
  obtain ⟨_, h2, h3, _⟩ := hget r entry
  obtain ⟨_, k2, k3, _⟩ := hget (get r entry).2 entry
  exact ⟨fun cluster => (k2 cluster).trans (h2 cluster), k3.trans h3⟩

/-- Symmetry of the index depends only on the lookups in its two halves. -/
theorem indexSymmetric_of_lookups (r r2 : ClusterProfileReconciler)
    (hmap : ∀ cluster, lookupSet r2.ClusterMap cluster = lookupSet r.ClusterMap cluster)
    (hprofile : r2.ClusterProfileMap = r.ClusterProfileMap) (hsymm : indexSymmetric r) :
    indexSymmetric r2 := by
  intro cluster policy
  rw [hmap cluster, hprofile]
  exact hsymm cluster policy

/-- C11, as stated, fails: the index records `p1` for the cluster, the only known
policy whose selector matches its labels is `p2`, the call returns requests for both,
and afterwards the index still records `p1` and not `p2`, with a helper that only
reads the index and with one that creates records for unknown clusters. -/
theorem requeueClusterProfileForCluster_index_stale :
    (staleReconciler.ClusterProfiles.filter
      (fun p => selectorMatches equalityParse equalityMatches exampleCluster.Labels p.2)).map
        (fun p => p.1) = [{ Kind := "ClusterProfile", Name := "p2" }] ∧
    staleReconciler.requeueClusterProfileForCluster equalityParse equalityMatches
      exampleCluster = some [requestFor "p1", requestFor "p2"] ∧
    ((staleReconciler.runRequeueClusterProfileForCluster readOnlyGetter equalityParse
        equalityMatches exampleCluster).1 = some [requestFor "p1", requestFor "p2"] ∧
      (lookupSet (staleReconciler.runRequeueClusterProfileForCluster readOnlyGetter equalityParse
        equalityMatches exampleCluster).2.ClusterMap (clusterInfoOf exampleCluster)).Items =
          [{ Kind := "ClusterProfile", Name := "p1" }]) ∧
    ((staleReconciler.runRequeueClusterProfileForCluster getOrCreateGetter equalityParse
        equalityMatches exampleCluster).1 = some [requestFor "p1", requestFor "p2"] ∧
      (lookupSet (staleReconciler.runRequeueClusterProfileForCluster getOrCreateGetter
        equalityParse equalityMatches exampleCluster).2.ClusterMap
          (clusterInfoOf exampleCluster)).Items = [{ Kind := "ClusterProfile", Name := "p1" }]) :=
  ⟨by decide, by decide, ⟨by decide, by decide⟩, ⟨by decide, by decide⟩⟩

/-- C11, amended: `requeueClusterProfileForCluster` does not replace the record of the
cluster in the Match Index.  With any `getClusterMapForEntry` that keeps the contract
of a lookup, the call gives the requests built from the record and the known policies,
and afterwards the index records for the cluster the set it recorded before. -/
theorem requeueClusterProfileForCluster_index_unchanged {σ : Type} (get : ClusterMapGetter)
    (hget : isLookup get) (Parse : String → Option σ) (Matches : σ → Labels → Bool)
    (r : ClusterProfileReconciler) (cluster : ClusterObject) :
    (r.runRequeueClusterProfileForCluster get Parse Matches cluster).1 =
      r.requeueClusterProfileForCluster Parse Matches cluster ∧
    lookupSet (r.runRequeueClusterProfileForCluster get Parse Matches cluster).2.ClusterMap
        (clusterInfoOf cluster) =
      lookupSet r.ClusterMap (clusterInfoOf cluster) := by
  refine ⟨runRequeueClusterProfileForCluster_requests get hget Parse Matches r cluster, ?_⟩
  rw [runRequeueClusterProfileForCluster_state]
  exact (isLookup_twice get hget r (clusterInfoOf cluster)).1 (clusterInfoOf cluster)

/-- Witness of the amended C11: with the helper that creates records, the record of
`ns/c1` stays `p1`, and for the unknown cluster `ns/c2` the helper writes to the index
and the recorded set stays empty. -/
theorem requeueClusterProfileForCluster_index_unchanged_witness :
    isLookup getOrCreateGetter ∧
    (lookupSet (staleReconciler.runRequeueClusterProfileForCluster getOrCreateGetter equalityParse
        equalityMatches exampleCluster).2.ClusterMap (clusterInfoOf exampleCluster) =
      { data := [{ Kind := "ClusterProfile", Name := "p1" }] }) ∧
    (lookupSet (staleReconciler.runRequeueClusterProfileForCluster getOrCreateGetter equalityParse
        equalityMatches unknownCluster).2.ClusterMap (clusterInfoOf unknownCluster) =
      { data := [] }) ∧
    (staleReconciler.runRequeueClusterProfileForCluster getOrCreateGetter equalityParse
        equalityMatches unknownCluster).2.ClusterMap ≠ staleReconciler.ClusterMap :=
  ⟨getOrCreateGetter_isLookup,
    (requeueClusterProfileForCluster_index_unchanged getOrCreateGetter
      getOrCreateGetter_isLookup equalityParse equalityMatches staleReconciler
      exampleCluster).2.trans (by decide),
    (requeueClusterProfileForCluster_index_unchanged getOrCreateGetter
      getOrCreateGetter_isLookup equalityParse equalityMatches staleReconciler
      unknownCluster).2.trans (by decide),
    by decide⟩

/-- The reconciler the mapper for machines leaves behind is the one it got, or the one
the second call of the helper leaves. -/
theorem runRequeueClusterProfileForMachine_state (get : ClusterMapGetter)
    (ClusterLabelName : String) (r : ClusterProfileReconciler) (machine : Machine) :
    (r.runRequeueClusterProfileForMachine get ClusterLabelName machine).2 = r ∨
    ∃ entry, (r.runRequeueClusterProfileForMachine get ClusterLabelName machine).2 =
      (get (get r entry).2 entry).2 := by
  unfold ClusterProfileReconciler.runRequeueClusterProfileForMachine
  cases machine.Labels.lookup ClusterLabelName with
  | none => exact Or.inl rfl
  | some n => exact Or.inr ⟨_, rfl⟩

/-- C12: with any `getClusterMapForEntry` that keeps the contract of a lookup, an index
that is symmetric before a call of `requeueClusterProfileForCluster` or of
`requeueClusterProfileForMachine` is symmetric after it, whether the call returned or
panicked, for every changed object and every map of known policies. -/
theorem requeue_preserves_indexSymmetric {σ : Type} (get : ClusterMapGetter)
    (hget : isLookup get) (Parse : String → Option σ) (Matches : σ → Labels → Bool)
    (ClusterLabelName : String) (r : ClusterProfileReconciler) (cluster : ClusterObject)
    (machine : Machine) (hsymm : indexSymmetric r) :
    indexSymmetric (r.runRequeueClusterProfileForCluster get Parse Matches cluster).2 ∧
    indexSymmetric (r.runRequeueClusterProfileForMachine get ClusterLabelName machine).2 := by
  constructor
  · rw [runRequeueClusterProfileForCluster_state]
    obtain ⟨h1, h2⟩ := isLookup_twice get hget r (clusterInfoOf cluster)
    exact indexSymmetric_of_lookups r _ h1 h2 hsymm
  · rcases runRequeueClusterProfileForMachine_state get ClusterLabelName r machine with h | ⟨entry, h⟩
    · rw [h]
      exact hsymm
    · rw [h]
      obtain ⟨h1, h2⟩ := isLookup_twice get hget r entry
      exact indexSymmetric_of_lookups r _ h1 h2 hsymm

/-- The index of the example reconciler is symmetric. -/
theorem exampleReconciler_indexSymmetric : indexSymmetric exampleReconciler := by
  intro cluster policy
  simp only [lookupSet, exampleReconciler, List.lookup_cons, List.lookup_nil, Set.Items]
  by_cases hc : cluster = { Kind := "Cluster", Namespace := "ns", Name := "c1"
                            APIVersion := "cluster.x-k8s.io/v1beta1" }
  · by_cases hp : policy = { Kind := "ClusterProfile", Name := "p1" }
    · subst hc hp
      decide
    · by_cases hp2 : policy = { Kind := "ClusterProfile", Name := "p2" }
      · subst hc hp2
        decide
      · subst hc
        have h1 : (policy == ({ Kind := "ClusterProfile", Name := "p1" } : ObjectReference)) = false := by
          simpa using hp
        have h2 : (policy == ({ Kind := "ClusterProfile", Name := "p2" } : ObjectReference)) = false := by
          simpa using hp2
        simp [h1, h2]
        exact fun h => hp h
  · have h0 : (cluster == ({ Kind := "Cluster", Namespace := "ns", Name := "c1"
                             APIVersion := "cluster.x-k8s.io/v1beta1" } : ObjectReference)) = false := by
      simpa using hc
    simp only [h0]
    by_cases hp : policy = { Kind := "ClusterProfile", Name := "p1" }
    · subst hp
      simp
      exact hc
    · by_cases hp2 : policy = { Kind := "ClusterProfile", Name := "p2" }
      · subst hp2
        have h3 : (({ Kind := "ClusterProfile", Name := "p2" } : ObjectReference) ==
            { Kind := "ClusterProfile", Name := "p1" }) = false := by decide
        simp [h3]
      · have h1 : (policy == ({ Kind := "ClusterProfile", Name := "p1" } : ObjectReference)) = false := by
          simpa using hp
        have h2 : (policy == ({ Kind := "ClusterProfile", Name := "p2" } : ObjectReference)) = false := by
          simpa using hp2
        simp [h1, h2]

/-- Witness of C12: the example reconciler, whose index is symmetric, with the helper
that creates records, a cluster and a machine of a cluster the index does not know:
both calls write to the index and leave it symmetric. -/
theorem requeue_preserves_indexSymmetric_witness :
    isLookup getOrCreateGetter ∧ indexSymmetric exampleReconciler ∧
    (indexSymmetric (exampleReconciler.runRequeueClusterProfileForCluster getOrCreateGetter
        equalityParse equalityMatches unknownCluster).2 ∧
      indexSymmetric (exampleReconciler.runRequeueClusterProfileForMachine getOrCreateGetter
        "cluster.x-k8s.io/cluster-name" unknownClusterMachine).2) ∧
    (exampleReconciler.runRequeueClusterProfileForCluster getOrCreateGetter
        equalityParse equalityMatches unknownCluster).2 ≠ exampleReconciler ∧
    (exampleReconciler.runRequeueClusterProfileForMachine getOrCreateGetter
        "cluster.x-k8s.io/cluster-name" unknownClusterMachine).2 ≠ exampleReconciler :=
  ⟨getOrCreateGetter_isLookup, exampleReconciler_indexSymmetric,
    requeue_preserves_indexSymmetric getOrCreateGetter getOrCreateGetter_isLookup
      equalityParse equalityMatches "cluster.x-k8s.io/cluster-name" exampleReconciler
      unknownCluster unknownClusterMachine exampleReconciler_indexSymmetric,
    by decide, by decide⟩

/-- C16: for a machine in namespace `ns` whose owning-cluster label has the value `n`,
`requeueClusterProfileForMachine` returns one request per policy the index records for
the cluster (machine API version, kind `Cluster`, `ns`, `n`), in the order of `Items`,
each with the policy's name and an empty namespace; the list is as long as that set,
and a reconciler with the same `ClusterMap` and a machine with the same API version,
namespace and label value give the same list, whatever the known policies and the
other labels are. -/
theorem requeueClusterProfileForMachine_labelled (ClusterLabelName : String)
    (r : ClusterProfileReconciler) (machine : Machine) (n : String)
    (hlabel : machine.Labels.lookup ClusterLabelName = some n) :
    (∃ requests, r.requeueClusterProfileForMachine ClusterLabelName machine = some requests ∧
      requests = (r.getClusterMapForEntry
          { APIVersion := machine.APIVersion, Kind := "Cluster"
            Namespace := machine.Namespace, Name := n }).Items.map
        (fun p => ({ NamespacedName := { Namespace := "", Name := p.Name } } : Request)) ∧
      requests.length = (r.getClusterMapForEntry
          { APIVersion := machine.APIVersion, Kind := "Cluster"
            Namespace := machine.Namespace, Name := n }).Len) ∧
    ∀ (r2 : ClusterProfileReconciler) (machine2 : Machine),
      r2.ClusterMap = r.ClusterMap → machine2.APIVersion = machine.APIVersion →
      machine2.Namespace = machine.Namespace →
      machine2.Labels.lookup ClusterLabelName = some n →
      r2.requeueClusterProfileForMachine ClusterLabelName machine2 =
        r.requeueClusterProfileForMachine ClusterLabelName machine := by
  have key : ∀ (r : ClusterProfileReconciler) (machine : Machine),
      machine.Labels.lookup ClusterLabelName = some n →
      r.requeueClusterProfileForMachine ClusterLabelName machine =
        some ((r.getClusterMapForEntry
          { APIVersion := machine.APIVersion, Kind := "Cluster"
            Namespace := machine.Namespace, Name := n }).Items.map
          (fun p => requestFor p.Name)) := by
    intro r machine h
    simp only [ClusterProfileReconciler.requeueClusterProfileForMachine, h, previousRequests_eq]
  refine ⟨⟨_, key r machine hlabel, rfl, by simp [Set.Len, Set.Items]⟩, ?_⟩
  intro r2 machine2 hmap hapi hns hlabel2
  rw [key r machine hlabel, key r2 machine2 hlabel2, hapi, hns]
  simp [ClusterProfileReconciler.getClusterMapForEntry, hmap]

/-- Witness of C16: the machine of cluster `ns/c1`, for which the index records
`p1`. -/
theorem requeueClusterProfileForMachine_labelled_witness :
    labelledMachine.Labels.lookup "cluster.x-k8s.io/cluster-name" = some "c1" ∧
    ∃ requests, exampleReconciler.requeueClusterProfileForMachine
        "cluster.x-k8s.io/cluster-name" labelledMachine = some requests ∧
      requests = [{ NamespacedName := { Namespace := "", Name := "p1" } }] ∧
      requests.length = 1 := by
  refine ⟨by decide, ?_⟩
  obtain ⟨requests, h1, h2, h3⟩ :=
    (requeueClusterProfileForMachine_labelled "cluster.x-k8s.io/cluster-name"
      exampleReconciler labelledMachine "c1" (by decide)).1
  exact ⟨requests, h1, h2.trans (by decide), h3.trans (by decide)⟩

/-! ## Invariants and frame of the scope mutators -/

/-- The observed keys in order of first appearance have no repetition. -/
theorem keepFirst_nodup (keys : List String) : (keepFirst keys).Nodup := by
  induction keys with
  | nil => simp [keepFirst]
  | cons k rest ih =>
    rw [keepFirst, List.nodup_cons]
    exact ⟨by simp [List.mem_filter], ih.filter _⟩

/-- Merging an observation into a list without repetition gives a list without
repetition. -/
theorem mergeKeys_nodup (recorded : List String) (deployed : List GroupVersionKind)
    (h : recorded.Nodup) : (mergeKeys recorded deployed).Nodup := by
  rw [mergeKeys_eq, List.nodup_append]
  refine ⟨h, (keepFirst_nodup _).filter _, ?_⟩
  intro x hx hx2
  have := (List.mem_filter.1 hx2).2
  simp [hx] at this

/-- C13: when the deployed list of feature `f` has no repeated key (as when `f` has no
entry or an empty list), after `SetDeployedGroupVersionKind(f, K)` it has no repeated
key, whatever repetitions `K` has. -/
theorem SetDeployedGroupVersionKind_nodup (s : ClusterSummaryScope) (featureID : FeatureID)
    (deployed : List GroupVersionKind) (hnodup : (s.deployedOf featureID).Nodup) :
    ((s.SetDeployedGroupVersionKind featureID deployed).deployedOf featureID).Nodup := by
  rw [deployedOf_SetDeployedGroupVersionKind]
  exact mergeKeys_nodup _ _ hnodup

/-- Witness of C13: `Helm` has one key recorded and the observation repeats both a
recorded and a new key; `Kustomize` has no entry. -/
theorem SetDeployedGroupVersionKind_nodup_witness :
    ((exampleScope.deployedOf "Helm").Nodup ∧
      ((exampleScope.SetDeployedGroupVersionKind "Helm"
        [{ Version := "v1", Kind := "Service" }, { Group := "apps", Version := "v1", Kind := "Deployment" },
         { Version := "v1", Kind := "Service" }]).deployedOf "Helm").Nodup) ∧
    (exampleScope.SetDeployedGroupVersionKind "Helm"
        [{ Version := "v1", Kind := "Service" }, { Group := "apps", Version := "v1", Kind := "Deployment" },
         { Version := "v1", Kind := "Service" }]).deployedOf "Helm" =
      ["Deployment.v1.apps", "Service.v1."] ∧
    ((exampleScope.SetDeployedGroupVersionKind "Kustomize"
        [{ Version := "v1", Kind := "Secret" }, { Version := "v1", Kind := "Secret" }]).deployedOf
          "Kustomize").Nodup :=
  ⟨⟨by decide, SetDeployedGroupVersionKind_nodup exampleScope "Helm"
      [{ Version := "v1", Kind := "Service" }, { Group := "apps", Version := "v1", Kind := "Deployment" },
       { Version := "v1", Kind := "Service" }] (by decide)⟩,
    by decide,
    SetDeployedGroupVersionKind_nodup exampleScope "Kustomize"
      [{ Version := "v1", Kind := "Secret" }, { Version := "v1", Kind := "Secret" }] (by decide)⟩

/-- The record `SetFailureReason` leaves when the feature has an entry. -/
theorem SetFailureReason_present (s : ClusterSummaryScope) (featureID : FeatureID)
    (failureReason : Option String)
    (pre : List FeatureSummary) (e : FeatureSummary) (suf : List FeatureSummary)
    (hl : s.summaries = pre ++ e :: suf) (hpre : ∀ x ∈ pre, x.FeatureID ≠ featureID)
    (he : e.FeatureID = featureID) :
    s.SetFailureReason featureID failureReason =
      s.withFeatureSummaries (some (pre ++ { e with FailureReason := failureReason } :: suf)) := by
  unfold ClusterSummaryScope.SetFailureReason
  rw [hl, updateFirst_split featureID _ pre e suf hpre he]

/-- The record `SetFailureReason` leaves when the feature has no entry. -/
theorem SetFailureReason_absent (s : ClusterSummaryScope) (featureID : FeatureID)
    (failureReason : Option String)
    (h : ∀ e ∈ s.summaries, e.FeatureID ≠ featureID) :
    s.SetFailureReason featureID failureReason =
      s.withFeatureSummaries (some (s.summaries ++
        [{ FeatureID := featureID, FailureReason := failureReason }])) := by
  unfold ClusterSummaryScope.SetFailureReason
  rw [updateFirst_eq_none featureID _ _ h]
  exact initialize_appendSummary s _

/-- The record `SetFailureMessage` leaves when the feature has an entry. -/
theorem SetFailureMessage_present (s : ClusterSummaryScope) (featureID : FeatureID)
    (failureMessage : Option String)
    (pre : List FeatureSummary) (e : FeatureSummary) (suf : List FeatureSummary)
    (hl : s.summaries = pre ++ e :: suf) (hpre : ∀ x ∈ pre, x.FeatureID ≠ featureID)
    (he : e.FeatureID = featureID) :
    s.SetFailureMessage featureID failureMessage =
      s.withFeatureSummaries (some (pre ++ { e with FailureMessage := failureMessage } :: suf)) := by
  unfold ClusterSummaryScope.SetFailureMessage
  rw [hl, updateFirst_split featureID _ pre e suf hpre he]

/-- The record `SetFailureMessage` leaves when the feature has no entry. -/
theorem SetFailureMessage_absent (s : ClusterSummaryScope) (featureID : FeatureID)
    (failureMessage : Option String)
    (h : ∀ e ∈ s.summaries, e.FeatureID ≠ featureID) :
    s.SetFailureMessage featureID failureMessage =
      s.withFeatureSummaries (some (s.summaries ++
        [{ FeatureID := featureID, FailureMessage := failureMessage }])) := by
  unfold ClusterSummaryScope.SetFailureMessage
  rw [updateFirst_eq_none featureID _ _ h]
  exact initialize_appendSummary s _

/-- The record `SetLastAppliedTime` leaves when the feature has an entry. -/
theorem SetLastAppliedTime_present (s : ClusterSummaryScope) (featureID : FeatureID)
    (lastAppliedTime : Option Time)
    (pre : List FeatureSummary) (e : FeatureSummary) (suf : List FeatureSummary)
    (hl : s.summaries = pre ++ e :: suf) (hpre : ∀ x ∈ pre, x.FeatureID ≠ featureID)
    (he : e.FeatureID = featureID) :
    s.SetLastAppliedTime featureID lastAppliedTime =
      s.withFeatureSummaries
        (some (pre ++ { e with LastAppliedTime := lastAppliedTime } :: suf)) := by
  unfold ClusterSummaryScope.SetLastAppliedTime
  rw [hl, updateFirst_split featureID _ pre e suf hpre he]

/-- The record `SetLastAppliedTime` leaves when the feature has no entry. -/
theorem SetLastAppliedTime_absent (s : ClusterSummaryScope) (featureID : FeatureID)
    (lastAppliedTime : Option Time)
    (h : ∀ e ∈ s.summaries, e.FeatureID ≠ featureID) :
    s.SetLastAppliedTime featureID lastAppliedTime =
      s.withFeatureSummaries (some (s.summaries ++
        [{ FeatureID := featureID, LastAppliedTime := lastAppliedTime }])) := by
  unfold ClusterSummaryScope.SetLastAppliedTime
  rw [updateFirst_eq_none featureID _ _ h]
  exact initialize_appendSummary s _

/-- Rewriting the first entry for a feature into another entry for it leaves the
entries of the other features as they were. -/
theorem othersOf_present (s : ClusterSummaryScope) (featureID : FeatureID)
    (pre : List FeatureSummary) (e e2 : FeatureSummary) (suf : List FeatureSummary)
    (hl : s.summaries = pre ++ e :: suf) (he : e.FeatureID = featureID)
    (he2 : e2.FeatureID = featureID) :
    (s.withFeatureSummaries (some (pre ++ e2 :: suf))).othersOf featureID =
      s.othersOf featureID := by
  simp [ClusterSummaryScope.othersOf, hl, List.filter_cons, he, he2]

/-- Appending an entry for a feature leaves the entries of the other features as they
were. -/
theorem othersOf_absent (s : ClusterSummaryScope) (featureID : FeatureID)
    (new : FeatureSummary) (hnew : new.FeatureID = featureID) :
    (s.withFeatureSummaries (some (s.summaries ++ [new]))).othersOf featureID =
      s.othersOf featureID := by
  simp [ClusterSummaryScope.othersOf, List.filter_cons, hnew]

/-- Rewriting the first entry for a feature into another entry for it keeps the
feature ids. -/
theorem distinct_present (s : ClusterSummaryScope) (featureID : FeatureID)
    (pre : List FeatureSummary) (e e2 : FeatureSummary) (suf : List FeatureSummary)
    (hl : s.summaries = pre ++ e :: suf) (he : e.FeatureID = featureID)
    (he2 : e2.FeatureID = featureID) (h : s.distinctFeatureIDs) :
    (s.withFeatureSummaries (some (pre ++ e2 :: suf))).distinctFeatureIDs := by
  unfold ClusterSummaryScope.distinctFeatureIDs at h ⊢
  rw [hl] at h
  simpa [he, he2] using h

/-- Appending an entry for a feature without one keeps the feature ids distinct. -/
theorem distinct_absent (s : ClusterSummaryScope) (featureID : FeatureID)
    (new : FeatureSummary) (hnew : new.FeatureID = featureID)
    (habs : ∀ e ∈ s.summaries, e.FeatureID ≠ featureID) (h : s.distinctFeatureIDs) :
    (s.withFeatureSummaries (some (s.summaries ++ [new]))).distinctFeatureIDs := by
  unfold ClusterSummaryScope.distinctFeatureIDs at h ⊢
  rw [summaries_withFeatureSummaries, List.map_append, List.nodup_append]
  refine ⟨h, by simp, ?_⟩
  intro x hx hx2
  obtain ⟨e, he, rfl⟩ := List.mem_map.1 hx
  simp only [List.map_cons, List.map_nil, List.mem_singleton] at hx2
  exact habs e he (hx2.trans hnew)

/-- A record either has a first entry for a feature or has none. -/
theorem first_entry_or_none (s : ClusterSummaryScope) (featureID : FeatureID) :
    (∃ pre e suf, s.summaries = pre ++ e :: suf ∧ (∀ x ∈ pre, x.FeatureID ≠ featureID) ∧
      e.FeatureID = featureID) ∨ ∀ e ∈ s.summaries, e.FeatureID ≠ featureID := by
  by_cases h : ∃ e ∈ s.summaries, e.FeatureID = featureID
  · exact Or.inl (exists_first_entry featureID s.summaries h)
  · exact Or.inr (fun e he hf => h ⟨e, he, hf⟩)

/-- Each mutator keeps the feature ids pairwise distinct. -/
theorem mutate_distinct (s : ClusterSummaryScope) (m : Mutation)
    (h : s.distinctFeatureIDs) : (s.mutate m).distinctFeatureIDs := by
  cases m with
  | setFeatureStatus f status hash =>
    rcases first_entry_or_none s f with ⟨pre, e, suf, hl, hpre, he⟩ | habs
    · rw [ClusterSummaryScope.mutate, SetFeatureStatus_present s f status hash pre e suf hl hpre he]
      exact distinct_present s f pre e _ suf hl he he h
    · rw [ClusterSummaryScope.mutate, SetFeatureStatus_absent s f status hash habs]
      exact distinct_absent s f _ rfl habs h
  | setFailureReason f failureReason =>
    rcases first_entry_or_none s f with ⟨pre, e, suf, hl, hpre, he⟩ | habs
    · rw [ClusterSummaryScope.mutate, SetFailureReason_present s f failureReason pre e suf hl hpre he]
      exact distinct_present s f pre e _ suf hl he he h
    · rw [ClusterSummaryScope.mutate, SetFailureReason_absent s f failureReason habs]
      exact distinct_absent s f _ rfl habs h
  | setFailureMessage f failureMessage =>
    rcases first_entry_or_none s f with ⟨pre, e, suf, hl, hpre, he⟩ | habs
    · rw [ClusterSummaryScope.mutate, SetFailureMessage_present s f failureMessage pre e suf hl hpre he]
      exact distinct_present s f pre e _ suf hl he he h
    · rw [ClusterSummaryScope.mutate, SetFailureMessage_absent s f failureMessage habs]
      exact distinct_absent s f _ rfl habs h
  | setDeployedGroupVersionKind f deployed =>
    rcases first_entry_or_none s f with ⟨pre, e, suf, hl, hpre, he⟩ | habs
    · rw [ClusterSummaryScope.mutate,
        SetDeployedGroupVersionKind_present s f deployed pre e suf hl hpre he]
      exact distinct_present s f pre e _ suf hl he he h
    · rw [ClusterSummaryScope.mutate, SetDeployedGroupVersionKind_absent s f deployed habs]
      exact distinct_absent s f _ rfl habs h
  | setLastAppliedTime f lastAppliedTime =>
    rcases first_entry_or_none s f with ⟨pre, e, suf, hl, hpre, he⟩ | habs
    · rw [ClusterSummaryScope.mutate,
        SetLastAppliedTime_present s f lastAppliedTime pre e suf hl hpre he]
      exact distinct_present s f pre e _ suf hl he he h
    · rw [ClusterSummaryScope.mutate, SetLastAppliedTime_absent s f lastAppliedTime habs]
      exact distinct_absent s f _ rfl habs h

/-- Any run of mutator calls keeps the feature ids pairwise distinct. -/
theorem foldl_mutate_distinct (ms : List Mutation) :
    ∀ s : ClusterSummaryScope, s.distinctFeatureIDs →
      (ms.foldl ClusterSummaryScope.mutate s).distinctFeatureIDs := by
  induction ms with
  | nil => intro s h; exact h
  | cons m rest ih => intro s h; exact ih _ (mutate_distinct s m h)

/-- C20: each of the five mutators, with any arguments, keeps the feature ids of the
record pairwise distinct, so every record reached from the empty one by any
interleaving of mutator calls has pairwise distinct feature ids. -/
theorem mutators_keep_FeatureIDs_distinct :
    (∀ (s : ClusterSummaryScope) (m : Mutation), s.distinctFeatureIDs →
      (s.mutate m).distinctFeatureIDs) ∧
    ∀ (s : ClusterSummaryScope) (ms : List Mutation), s.summaries = [] →
      (ms.foldl ClusterSummaryScope.mutate s).distinctFeatureIDs := by
  refine ⟨mutate_distinct, fun s ms hs => foldl_mutate_distinct ms s ?_⟩
  simp [ClusterSummaryScope.distinctFeatureIDs, hs]

/-- Witness of C20: one call on the example record, and an interleaving of all five
mutators over two features from the empty record. -/
theorem mutators_keep_FeatureIDs_distinct_witness :
    (exampleScope.distinctFeatureIDs ∧
      (exampleScope.mutate (.setFailureReason "Kustomize" (some "timeout"))).distinctFeatureIDs) ∧
    (([Mutation.setLastAppliedTime "Helm" none, .setFeatureStatus "Resources" "Failed" none,
        .setDeployedGroupVersionKind "Helm" [{ Version := "v1", Kind := "Service" }],
        .setFailureMessage "Resources" (some "apply failed"),
        .setFailureReason "Resources" (some "timeout"),
        .setFeatureStatus "Helm" "Provisioned" (some [4])].foldl
          ClusterSummaryScope.mutate {}).distinctFeatureIDs ∧
      ([Mutation.setLastAppliedTime "Helm" none, .setFeatureStatus "Resources" "Failed" none,
        .setDeployedGroupVersionKind "Helm" [{ Version := "v1", Kind := "Service" }],
        .setFailureMessage "Resources" (some "apply failed"),
        .setFailureReason "Resources" (some "timeout"),
        .setFeatureStatus "Helm" "Provisioned" (some [4])].foldl
          ClusterSummaryScope.mutate {}).summaries.map (fun e => e.FeatureID) =
        ["Helm", "Resources"]) :=
  ⟨⟨by unfold ClusterSummaryScope.distinctFeatureIDs; decide,
      mutators_keep_FeatureIDs_distinct.1 exampleScope _
        (by unfold ClusterSummaryScope.distinctFeatureIDs; decide)⟩,
    mutators_keep_FeatureIDs_distinct.2 {} _ rfl, by decide⟩

/-- C19: every mutator changes only what it names.  When the first entry for feature
`f` is `e`, each mutator stores the same entries in the same places with `e` changed in
its own fields only (status and hash; failure reason; failure message; deployed kinds;
last-applied time) and leaves the rest of the record alone; when `f` has no entry it
appends one entry and touches no other; in both cases the entries with a different
feature id are the same, in the same order. -/
theorem mutators_change_only_their_fields (s : ClusterSummaryScope) (featureID : FeatureID)
    (status : FeatureStatus) (hash : Option (List (Fin 256)))
    (failureReason failureMessage : Option String) (deployed : List GroupVersionKind)
    (lastAppliedTime : Option Time) :
    (∀ pre e suf, s.summaries = pre ++ e :: suf → (∀ x ∈ pre, x.FeatureID ≠ featureID) →
      e.FeatureID = featureID →
      s.SetFeatureStatus featureID status hash =
        s.withFeatureSummaries
          (some (pre ++ { e with Status := status, Hash := hash } :: suf)) ∧
      s.SetFailureReason featureID failureReason =
        s.withFeatureSummaries
          (some (pre ++ { e with FailureReason := failureReason } :: suf)) ∧
      s.SetFailureMessage featureID failureMessage =
        s.withFeatureSummaries
          (some (pre ++ { e with FailureMessage := failureMessage } :: suf)) ∧
      s.SetDeployedGroupVersionKind featureID deployed =
        s.withFeatureSummaries
          (some (pre ++
            { e with
              DeployedGroupVersionKind :=
                some (mergeKeys (sliceItems e.DeployedGroupVersionKind) deployed) } :: suf)) ∧
      s.SetLastAppliedTime featureID lastAppliedTime =
        s.withFeatureSummaries
          (some (pre ++ { e with LastAppliedTime := lastAppliedTime } :: suf))) ∧
    ((∀ x ∈ s.summaries, x.FeatureID ≠ featureID) →
      s.SetFeatureStatus featureID status hash =
        s.withFeatureSummaries (some (s.summaries ++
          [{ FeatureID := featureID, Status := status, Hash := hash }])) ∧
      s.SetFailureReason featureID failureReason =
        s.withFeatureSummaries (some (s.summaries ++
          [{ FeatureID := featureID, FailureReason := failureReason }])) ∧
      s.SetFailureMessage featureID failureMessage =
        s.withFeatureSummaries (some (s.summaries ++
          [{ FeatureID := featureID, FailureMessage := failureMessage }])) ∧
      s.SetDeployedGroupVersionKind featureID deployed =
        s.withFeatureSummaries (some (s.summaries ++
          [{ FeatureID := featureID
             DeployedGroupVersionKind := some (mergeKeys [] deployed) }])) ∧
      s.SetLastAppliedTime featureID lastAppliedTime =
        s.withFeatureSummaries (some (s.summaries ++
          [{ FeatureID := featureID, LastAppliedTime := lastAppliedTime }]))) ∧
    ((s.SetFeatureStatus featureID status hash).othersOf featureID = s.othersOf featureID ∧
      (s.SetFailureReason featureID failureReason).othersOf featureID =
        s.othersOf featureID ∧
      (s.SetFailureMessage featureID failureMessage).othersOf featureID =
        s.othersOf featureID ∧
      (s.SetDeployedGroupVersionKind featureID deployed).othersOf featureID =
        s.othersOf featureID ∧
      (s.SetLastAppliedTime featureID lastAppliedTime).othersOf featureID =
        s.othersOf featureID) := by
  have hpresent : ∀ pre e suf, s.summaries = pre ++ e :: suf →
      (∀ x ∈ pre, x.FeatureID ≠ featureID) → e.FeatureID = featureID →
      s.SetFeatureStatus featureID status hash =
        s.withFeatureSummaries
          (some (pre ++ { e with Status := status, Hash := hash } :: suf)) ∧
      s.SetFailureReason featureID failureReason =
        s.withFeatureSummaries
          (some (pre ++ { e with FailureReason := failureReason } :: suf)) ∧
      s.SetFailureMessage featureID failureMessage =
        s.withFeatureSummaries
          (some (pre ++ { e with FailureMessage := failureMessage } :: suf)) ∧
      s.SetDeployedGroupVersionKind featureID deployed =
        s.withFeatureSummaries
          (some (pre ++
            { e with
              DeployedGroupVersionKind :=
                some (mergeKeys (sliceItems e.DeployedGroupVersionKind) deployed) } :: suf)) ∧
      s.SetLastAppliedTime featureID lastAppliedTime =
        s.withFeatureSummaries
          (some (pre ++ { e with LastAppliedTime := lastAppliedTime } :: suf)) :=
    fun pre e suf hl hpre he =>
      ⟨SetFeatureStatus_present s featureID status hash pre e suf hl hpre he,
        SetFailureReason_present s featureID failureReason pre e suf hl hpre he,
        SetFailureMessage_present s featureID failureMessage pre e suf hl hpre he,
        SetDeployedGroupVersionKind_present s featureID deployed pre e suf hl hpre he,
        SetLastAppliedTime_present s featureID lastAppliedTime pre e suf hl hpre he⟩
  have habsent : (∀ x ∈ s.summaries, x.FeatureID ≠ featureID) →
      s.SetFeatureStatus featureID status hash =
        s.withFeatureSummaries (some (s.summaries ++
          [{ FeatureID := featureID, Status := status, Hash := hash }])) ∧
      s.SetFailureReason featureID failureReason =
        s.withFeatureSummaries (some (s.summaries ++
          [{ FeatureID := featureID, FailureReason := failureReason }])) ∧
      s.SetFailureMessage featureID failureMessage =
        s.withFeatureSummaries (some (s.summaries ++
          [{ FeatureID := featureID, FailureMessage := failureMessage }])) ∧
      s.SetDeployedGroupVersionKind featureID deployed =
        s.withFeatureSummaries (some (s.summaries ++
          [{ FeatureID := featureID
             DeployedGroupVersionKind := some (mergeKeys [] deployed) }])) ∧
      s.SetLastAppliedTime featureID lastAppliedTime =
        s.withFeatureSummaries (some (s.summaries ++
          [{ FeatureID := featureID, LastAppliedTime := lastAppliedTime }])) :=
    fun habs =>
      ⟨SetFeatureStatus_absent s featureID status hash habs,
        SetFailureReason_absent s featureID failureReason habs,
        SetFailureMessage_absent s featureID failureMessage habs,
        SetDeployedGroupVersionKind_absent s featureID deployed habs,
        SetLastAppliedTime_absent s featureID lastAppliedTime habs⟩
  refine ⟨hpresent, habsent, ?_⟩
  rcases first_entry_or_none s featureID with ⟨pre, e, suf, hl, hpre, he⟩ | habs
  · obtain ⟨h1, h2, h3, h4, h5⟩ := hpresent pre e suf hl hpre he
    rw [h1, h2, h3, h4, h5]
    exact ⟨othersOf_present s featureID pre e _ suf hl he he,
      othersOf_present s featureID pre e _ suf hl he he,
      othersOf_present s featureID pre e _ suf hl he he,
      othersOf_present s featureID pre e _ suf hl he he,
      othersOf_present s featureID pre e _ suf hl he he⟩
  · obtain ⟨h1, h2, h3, h4, h5⟩ := habsent habs
    rw [h1, h2, h3, h4, h5]
    exact ⟨othersOf_absent s featureID _ rfl, othersOf_absent s featureID _ rfl,
      othersOf_absent s featureID _ rfl, othersOf_absent s featureID _ rfl,
      othersOf_absent s featureID _ rfl⟩

/-- Witness of C19: in the example record `Resources` is the second entry and has a
failure message; `SetFeatureStatus` rewrites its status and hash and keeps the
message, and the `Helm` entry in front of it is untouched. -/
theorem mutators_change_only_their_fields_witness :
    exampleScope.summaries =
      [{ FeatureID := "Helm", Status := "Provisioned", Hash := some [1, 2]
         DeployedGroupVersionKind := some ["Deployment.v1.apps"] }] ++
      { FeatureID := "Resources", Status := "Failed"
        FailureMessage := some "apply failed" } :: [] ∧
    exampleScope.SetFeatureStatus "Resources" "Provisioned" (some [5]) =
      exampleScope.withFeatureSummaries
        (some ([{ FeatureID := "Helm", Status := "Provisioned", Hash := some [1, 2]
                  DeployedGroupVersionKind := some ["Deployment.v1.apps"] }] ++
          { FeatureID := "Resources", Status := "Provisioned", Hash := some [5]
            FailureMessage := some "apply failed" } :: [])) :=
  ⟨by decide,
    ((mutators_change_only_their_fields exampleScope "Resources" "Provisioned" (some [5])
      none none [] none).1
      [{ FeatureID := "Helm", Status := "Provisioned", Hash := some [1, 2]
         DeployedGroupVersionKind := some ["Deployment.v1.apps"] }]
      { FeatureID := "Resources", Status := "Failed", FailureMessage := some "apply failed" }
      [] (by decide) (by decide) (by decide)).1⟩

/-! ## Closing the scope, sync modes and the constructor -/

/-- C14: `Close` makes exactly one call of the persist, with the scope's current
`ClusterSummary`, and returns its result as it is: the same error when it fails, none
when it succeeds, and no second call after a failure. -/
theorem Close_single_persist (Patch : List ClusterSummary → ClusterSummary → Option Error)
    (s : ClusterSummaryScope) (patched : List ClusterSummary) :
    (s.Close Patch patched).2 = patched ++ [s.ClusterSummary] ∧
    (s.Close Patch patched).2.length = patched.length + 1 ∧
    (s.Close Patch patched).1 = Patch patched s.ClusterSummary ∧
    ((s.Close Patch patched).1.isSome = true ↔ (Patch patched s.ClusterSummary).isSome = true) ∧
    s.Close Patch patched = s.PatchObject Patch patched := by
  have hlog : (s.Close Patch patched).2 = patched ++ [s.ClusterSummary] := rfl
  have hres : (s.Close Patch patched).1 = Patch patched s.ClusterSummary := rfl
  refine ⟨hlog, ?_, hres, ?_, rfl⟩
  · rw [hlog, List.length_append, List.length_singleton]
  · rw [hres]

/-- The helper that would succeed on a second call: `Close` on the example scope
returns the conflict of the first call and has patched once. -/
theorem Close_single_persist_witness :
    (exampleScope.Close conflictOnce []).1 = some "the object has been modified" ∧
    (exampleScope.Close conflictOnce []).2 = [exampleScope.ClusterSummary] ∧
    conflictOnce (exampleScope.Close conflictOnce []).2 exampleScope.ClusterSummary = none := by
  obtain ⟨h1, _, h3, _, _⟩ := Close_single_persist conflictOnce exampleScope []
  exact ⟨h3.trans (by decide), h1.trans (by decide), by decide⟩

/-- C15: `IsOneTimeSync` holds exactly for the mode `OneTime`, `IsContinuousSync`
exactly for `Continuous` and `ContinuousWithDriftDetection`, `IsDryRunSync` exactly for
`DryRun`; for each of the four modes exactly one of the three holds, and for any other
mode value none does. -/
theorem sync_mode_predicates (s : ClusterSummaryScope) :
    (s.IsOneTimeSync = true ↔
      s.ClusterSummary.Spec.ClusterProfileSpec.SyncMode = SyncModeOneTime) ∧
    (s.IsContinuousSync = true ↔
      (s.ClusterSummary.Spec.ClusterProfileSpec.SyncMode = SyncModeContinuous ∨
        s.ClusterSummary.Spec.ClusterProfileSpec.SyncMode =
          SyncModeContinuousWithDriftDetection)) ∧
    (s.IsDryRunSync = true ↔
      s.ClusterSummary.Spec.ClusterProfileSpec.SyncMode = SyncModeDryRun) ∧
    (s.ClusterSummary.Spec.ClusterProfileSpec.SyncMode ∈
        [SyncModeOneTime, SyncModeContinuous, SyncModeContinuousWithDriftDetection,
         SyncModeDryRun] →
      [s.IsOneTimeSync, s.IsContinuousSync, s.IsDryRunSync].count true = 1) ∧
    (s.ClusterSummary.Spec.ClusterProfileSpec.SyncMode ∉
        [SyncModeOneTime, SyncModeContinuous, SyncModeContinuousWithDriftDetection,
         SyncModeDryRun] →
      s.IsOneTimeSync = false ∧ s.IsContinuousSync = false ∧ s.IsDryRunSync = false) := by
  unfold ClusterSummaryScope.IsOneTimeSync ClusterSummaryScope.IsContinuousSync
    ClusterSummaryScope.IsDryRunSync
  generalize s.ClusterSummary.Spec.ClusterProfileSpec.SyncMode = mode
  refine ⟨by simp, by simp, by simp, ?_, ?_⟩
  · intro h
    simp only [List.mem_cons, List.mem_singleton, List.not_mem_nil, or_false] at h
    rcases h with rfl | rfl | rfl | rfl <;> decide
  · intro h
    simp only [List.mem_cons, List.mem_singleton, List.not_mem_nil, or_false, not_or] at h
    simp [h.1, h.2.1, h.2.2.1, h.2.2.2]

/-- Witness of C15: the four modes and the unset mode. -/
theorem sync_mode_predicates_witness :
    (∀ mode ∈ [SyncModeOneTime, SyncModeContinuous, SyncModeContinuousWithDriftDetection,
        SyncModeDryRun],
      [({ ClusterSummary := { Spec := { ClusterProfileSpec := { SyncMode := mode } } } } :
          ClusterSummaryScope).IsOneTimeSync,
        ({ ClusterSummary := { Spec := { ClusterProfileSpec := { SyncMode := mode } } } } :
          ClusterSummaryScope).IsContinuousSync,
        ({ ClusterSummary := { Spec := { ClusterProfileSpec := { SyncMode := mode } } } } :
          ClusterSummaryScope).IsDryRunSync].count true = 1) ∧
    (exampleScope.IsOneTimeSync = false ∧ exampleScope.IsContinuousSync = false ∧
      exampleScope.IsDryRunSync = false) :=
  ⟨fun mode hmode => (sync_mode_predicates
      { ClusterSummary := { Spec := { ClusterProfileSpec := { SyncMode := mode } } } }).2.2.2.1
      hmode,
    (sync_mode_predicates exampleScope).2.2.2.2 (by decide)⟩

/-- C18: `NewClusterSummaryScope` returns an error and no scope when the client is nil
(that error first) or the cluster summary is nil; whether it fails does not depend on
the cluster profile, the controller name or the logger; with a client, a cluster
summary and a working patch helper it returns a scope, and a scope it returns holds the
cluster summary and the cluster profile passed in. -/
theorem NewClusterSummaryScope_checks {κ : Type}
    (NewHelper : ClusterSummary → κ → Option Error) (params : ClusterSummaryScopeParams κ) :
    (params.Client = none →
      NewClusterSummaryScope NewHelper params =
        .error "client is required when creating a ClusterSummaryScope") ∧
    (params.Client ≠ none → params.ClusterSummary = none →
      NewClusterSummaryScope NewHelper params =
        .error "failed to generate new scope from nil ClusterSummary") ∧
    (params.Client = none ∨ params.ClusterSummary = none →
      ∃ err, NewClusterSummaryScope NewHelper params = .error err) ∧
    (∀ (logger : Logger) (clusterProfile : Option ClusterProfile) (controllerName : String),
      (NewClusterSummaryScope NewHelper
        { params with
          Logger := logger, ClusterProfile := clusterProfile
          ControllerName := controllerName }).isOk =
        (NewClusterSummaryScope NewHelper params).isOk) ∧
    (∀ client clusterSummary, params.Client = some client →
      params.ClusterSummary = some clusterSummary → NewHelper clusterSummary client = none →
      NewClusterSummaryScope NewHelper params =
        .ok { ClusterProfile := params.ClusterProfile
              ClusterSummary := clusterSummary
              controllerName := params.ControllerName }) ∧
    (∀ s, NewClusterSummaryScope NewHelper params = .ok s →
      params.ClusterSummary = some s.ClusterSummary ∧
        s.ClusterProfile = params.ClusterProfile) := by
  obtain ⟨client, logger, clusterProfile, clusterSummary, controllerName⟩ := params
  refine ⟨?_, ?_, ?_, ?_, ?_, ?_⟩
  · intro h
    simp only at h
    subst h
    rfl
  · intro h1 h2
    simp only at h1 h2
    subst h2
    cases client with
    | none => exact absurd rfl h1
    | some c => rfl
  · intro h
    simp only at h
    cases client with
    | none => exact ⟨_, rfl⟩
    | some c =>
      rcases h with h | h
      · cases h
      · subst h
        exact ⟨_, rfl⟩
  · intro logger2 clusterProfile2 controllerName2
    cases client with
    | none => rfl
    | some c =>
      cases clusterSummary with
      | none => rfl
      | some cs =>
        simp only [NewClusterSummaryScope]
        cases NewHelper cs c <;> rfl
  · intro c cs h1 h2 h3
    simp only at h1 h2
    subst h1 h2
    simp [NewClusterSummaryScope, h3]
  · intro s hs
    cases client with
    | none => simp [NewClusterSummaryScope] at hs
    | some c =>
      cases clusterSummary with
      | none => simp [NewClusterSummaryScope] at hs
      | some cs =>
        simp only [NewClusterSummaryScope] at hs
        cases hh : NewHelper cs c with
        | some err => simp [hh] at hs
        | none =>
          simp only [hh, Except.ok.injEq] at hs
          subst hs
          exact ⟨rfl, rfl⟩

/-- Witness of C18: a nil client, a nil cluster summary, both nil, and parameters with
nothing but a client and a cluster summary. -/
theorem NewClusterSummaryScope_checks_witness :
    NewClusterSummaryScope (fun _ (_ : Unit) => none)
        { ClusterSummary := some exampleScope.ClusterSummary } =
      .error "client is required when creating a ClusterSummaryScope" ∧
    NewClusterSummaryScope (fun _ (_ : Unit) => none) { Client := some () } =
      .error "failed to generate new scope from nil ClusterSummary" ∧
    NewClusterSummaryScope (fun _ (_ : Unit) => none) {} =
      .error "client is required when creating a ClusterSummaryScope" ∧
    NewClusterSummaryScope (fun _ (_ : Unit) => none) bareParams =
      .ok { ClusterProfile := none, ClusterSummary := exampleScope.ClusterSummary
            controllerName := "" } :=
  ⟨(NewClusterSummaryScope_checks (fun _ (_ : Unit) => none)
      { ClusterSummary := some exampleScope.ClusterSummary }).1 rfl,
    (NewClusterSummaryScope_checks (fun _ (_ : Unit) => none)
      { Client := some () }).2.1 (by simp) rfl,
    (NewClusterSummaryScope_checks (fun _ (_ : Unit) => none) {}).1 rfl,
    (NewClusterSummaryScope_checks (fun _ (_ : Unit) => none) bareParams).2.2.2.2.1
      () exampleScope.ClusterSummary rfl rfl rfl⟩

/-! ## The drift report -/

/-- Reading a key back after it was put gives the object that was put. -/
theorem lookup_putResourceSummary (key : String × String) (obj : ResourceSummary)
    (store : ResourceSummaryStore) :
    (putResourceSummary key obj store).lookup key = some obj := by
  induction store with
  | nil => simp [putResourceSummary, List.lookup]
  | cons kv rest ih =>
    obtain ⟨k, v⟩ := kv
    by_cases hk : k = key
    · simp [putResourceSummary, hk, List.lookup]
    · have hne : (key == k) = false := by
        rw [beq_eq_false_iff_ne]
        exact fun h => hk h.symm
      simp only [putResourceSummary, if_neg hk, List.lookup_cons, hne]
      exact ih

/-- C17: after `DeployResourceSummaryInstance` succeeds, the stored `ResourceSummary`
named `GetResourceSummaryName(clusterNamespace, clusterSummaryName)` in the namespace
`GetResourceSummaryNamespace()` has `Spec.Resources` equal to the list passed in,
whatever report the store held before, and carries the two labels with the cluster
summary name and the cluster namespace. -/
theorem DeployResourceSummaryInstance_replaces
    (GetResourceSummaryName : String → String → String)
    (GetResourceSummaryNamespace ClusterSummaryLabelName ClusterSummaryLabelNamespace : String)
    (clientError : Option Error) (store : ResourceSummaryStore)
    (resources : Option (List Resource)) (clusterNamespace clusterSummaryName : String)
    (hkeys : ClusterSummaryLabelName ≠ ClusterSummaryLabelNamespace)
    (hok : (DeployResourceSummaryInstance GetResourceSummaryName GetResourceSummaryNamespace
      ClusterSummaryLabelName ClusterSummaryLabelNamespace clientError store resources
      clusterNamespace clusterSummaryName).1 = none) :
    ∃ current labels,
      getResourceSummary
        (DeployResourceSummaryInstance GetResourceSummaryName GetResourceSummaryNamespace
          ClusterSummaryLabelName ClusterSummaryLabelNamespace clientError store resources
          clusterNamespace clusterSummaryName).2
        GetResourceSummaryNamespace
        (GetResourceSummaryName clusterNamespace clusterSummaryName) = some current ∧
      current.Resources = resources ∧
      current.Labels = some labels ∧
      labels.lookup ClusterSummaryLabelName = some clusterSummaryName ∧
      labels.lookup ClusterSummaryLabelNamespace = some clusterNamespace := by
  cases clientError with
  | some err => simp [DeployResourceSummaryInstance] at hok
  | none =>
    have hne : (ClusterSummaryLabelNamespace == ClusterSummaryLabelName) = false := by
      rw [beq_eq_false_iff_ne]
      exact fun h => hkeys h.symm
    refine ⟨_, _, lookup_putResourceSummary _ _ store, rfl, rfl, ?_, ?_⟩
    · simp [List.lookup]
    · simp [List.lookup, hne]

/-- Witness of C17: a report of one resource replaces the stored report of two for the
same pairing. -/
theorem DeployResourceSummaryInstance_replaces_witness :
    ("name" : String) ≠ "namespace" ∧
    (DeployResourceSummaryInstance (fun ns name => ns ++ "--" ++ name) "projectsveltos"
      "name" "namespace" none exampleStore
      (some [{ Name := "new", Kind := "Service", Version := "v1" }]) "ns1" "summary1").1 = none ∧
    ∃ current labels,
      getResourceSummary
        (DeployResourceSummaryInstance (fun ns name => ns ++ "--" ++ name) "projectsveltos"
          "name" "namespace" none exampleStore
          (some [{ Name := "new", Kind := "Service", Version := "v1" }]) "ns1" "summary1").2
        "projectsveltos" ("ns1" ++ "--" ++ "summary1") = some current ∧
      current.Resources = some [{ Name := "new", Kind := "Service", Version := "v1" }] ∧
      current.Labels = some labels ∧
      labels.lookup "name" = some "summary1" ∧
      labels.lookup "namespace" = some "ns1" :=
  ⟨by decide, by decide,
    DeployResourceSummaryInstance_replaces (fun ns name => ns ++ "--" ++ name) "projectsveltos"
      "name" "namespace" none exampleStore
      (some [{ Name := "new", Kind := "Service", Version := "v1" }]) "ns1" "summary1"
      (by decide) (by decide)⟩

/-! ## Mutator calls on one feature -/

/-- A mutator call on a record with a first entry for its feature rewrites that entry
in place. -/
theorem mutate_present (s : ClusterSummaryScope) (m : Mutation)
    (pre : List FeatureSummary) (e : FeatureSummary) (suf : List FeatureSummary)
    (hl : s.summaries = pre ++ e :: suf) (hpre : ∀ x ∈ pre, x.FeatureID ≠ m.featureID)
    (he : e.FeatureID = m.featureID) :
    s.mutate m = s.withFeatureSummaries (some (pre ++ m.update e :: suf)) := by
  cases m with
  | setFeatureStatus f status hash =>
    exact SetFeatureStatus_present s f status hash pre e suf hl hpre he
  | setFailureReason f failureReason =>
    exact SetFailureReason_present s f failureReason pre e suf hl hpre he
  | setFailureMessage f failureMessage =>
    exact SetFailureMessage_present s f failureMessage pre e suf hl hpre he
  | setDeployedGroupVersionKind f deployed =>
    exact SetDeployedGroupVersionKind_present s f deployed pre e suf hl hpre he
  | setLastAppliedTime f lastAppliedTime =>
    exact SetLastAppliedTime_present s f lastAppliedTime pre e suf hl hpre he

/-- A mutator call on a record without an entry for its feature appends the entry that
has the feature id and the mutator's own fields and nothing else. -/
theorem mutate_absent (s : ClusterSummaryScope) (m : Mutation)
    (habs : ∀ x ∈ s.summaries, x.FeatureID ≠ m.featureID) :
    s.mutate m =
      s.withFeatureSummaries
        (some (s.summaries ++ [m.update { FeatureID := m.featureID }])) := by
  cases m with
  | setFeatureStatus f status hash => exact SetFeatureStatus_absent s f status hash habs
  | setFailureReason f failureReason => exact SetFailureReason_absent s f failureReason habs
  | setFailureMessage f failureMessage =>
    exact SetFailureMessage_absent s f failureMessage habs
  | setDeployedGroupVersionKind f deployed =>
    exact SetDeployedGroupVersionKind_absent s f deployed habs
  | setLastAppliedTime f lastAppliedTime =>
    exact SetLastAppliedTime_absent s f lastAppliedTime habs

/-- A mutator call leaves the feature id of the entry it rewrites. -/
theorem update_FeatureID (m : Mutation) (e : FeatureSummary) :
    (m.update e).FeatureID = e.FeatureID := by
  cases m <;> rfl

/-- Calls of two different mutators rewrite an entry to the same result in either
order. -/
theorem update_comm (m1 m2 : Mutation) (hne : m1.mutator ≠ m2.mutator) (e : FeatureSummary) :
    m2.update (m1.update e) = m1.update (m2.update e) := by
  cases m1 <;> cases m2 <;> first | rfl | exact absurd rfl hne

/-- C21: when feature `f` has no entry, each of `SetFailureReason`, `SetFailureMessage`,
`SetLastAppliedTime` and `SetDeployedGroupVersionKind` appends exactly one entry for
`f`; its status is the empty value, which is none of `Provisioning`, `Provisioned`,
`Failed`, `Removed`, its hash is nil, and the sequence is one longer. -/
theorem mutators_append_unset_status (s : ClusterSummaryScope) (featureID : FeatureID)
    (failureReason failureMessage : Option String) (lastAppliedTime : Option Time)
    (deployed : List GroupVersionKind)
    (habs : ∀ e ∈ s.summaries, e.FeatureID ≠ featureID) :
    (∃ e, (s.SetFailureReason featureID failureReason).summaries = s.summaries ++ [e] ∧
      e.FeatureID = featureID ∧ e.Status = "" ∧ e.Hash = none ∧
      (s.SetFailureReason featureID failureReason).summaries.length =
        s.summaries.length + 1) ∧
    (∃ e, (s.SetFailureMessage featureID failureMessage).summaries = s.summaries ++ [e] ∧
      e.FeatureID = featureID ∧ e.Status = "" ∧ e.Hash = none ∧
      (s.SetFailureMessage featureID failureMessage).summaries.length =
        s.summaries.length + 1) ∧
    (∃ e, (s.SetLastAppliedTime featureID lastAppliedTime).summaries = s.summaries ++ [e] ∧
      e.FeatureID = featureID ∧ e.Status = "" ∧ e.Hash = none ∧
      (s.SetLastAppliedTime featureID lastAppliedTime).summaries.length =
        s.summaries.length + 1) ∧
    (∃ e, (s.SetDeployedGroupVersionKind featureID deployed).summaries = s.summaries ++ [e] ∧
      e.FeatureID = featureID ∧ e.Status = "" ∧ e.Hash = none ∧
      (s.SetDeployedGroupVersionKind featureID deployed).summaries.length =
        s.summaries.length + 1) ∧
    ("" : FeatureStatus) ∉ [FeatureStatusProvisioning, FeatureStatusProvisioned,
      FeatureStatusFailed, FeatureStatusRemoved] := by
  refine ⟨?_, ?_, ?_, ?_, by decide⟩
  · rw [SetFailureReason_absent s featureID failureReason habs]
    exact ⟨_, rfl, rfl, rfl, rfl, by simp⟩
  · rw [SetFailureMessage_absent s featureID failureMessage habs]
    exact ⟨_, rfl, rfl, rfl, rfl, by simp⟩
  · rw [SetLastAppliedTime_absent s featureID lastAppliedTime habs]
    exact ⟨_, rfl, rfl, rfl, rfl, by simp⟩
  · rw [SetDeployedGroupVersionKind_absent s featureID deployed habs]
    exact ⟨_, rfl, rfl, rfl, rfl, by simp⟩

/-- Witness of C21: `Kustomize` has no entry in the example record; the entry
`SetFailureReason` appends has the empty status and a nil hash. -/
theorem mutators_append_unset_status_witness :
    (∀ e ∈ exampleScope.summaries, e.FeatureID ≠ "Kustomize") ∧
    (exampleScope.SetFailureReason "Kustomize" (some "timeout")).summaries =
      exampleScope.summaries ++
        [{ FeatureID := "Kustomize", Hash := none, Status := ""
           FailureReason := some "timeout" }] ∧
    ∃ e, (exampleScope.SetDeployedGroupVersionKind "Kustomize"
        [{ Version := "v1", Kind := "Secret" }]).summaries = exampleScope.summaries ++ [e] ∧
      e.FeatureID = "Kustomize" ∧ e.Status = "" ∧ e.Hash = none ∧
      (exampleScope.SetDeployedGroupVersionKind "Kustomize"
        [{ Version := "v1", Kind := "Secret" }]).summaries.length =
          exampleScope.summaries.length + 1 :=
  ⟨by decide, by decide,
    (mutators_append_unset_status exampleScope "Kustomize" (some "timeout") none none
      [{ Version := "v1", Kind := "Secret" }] (by decide)).2.2.2.1⟩

/-- C22: calls of two different mutators for the same feature id, with any arguments,
give the same record in either order, whether or not the feature has an entry
beforehand. -/
theorem mutators_commute (s : ClusterSummaryScope) (m1 m2 : Mutation)
    (hf : m1.featureID = m2.featureID) (hne : m1.mutator ≠ m2.mutator) :
    (s.mutate m1).mutate m2 = (s.mutate m2).mutate m1 := by
  rcases first_entry_or_none s m1.featureID with ⟨pre, e, suf, hl, hpre, he⟩ | habs
  · have hpre2 : ∀ x ∈ pre, x.FeatureID ≠ m2.featureID := hf ▸ hpre
    have he2 : e.FeatureID = m2.featureID := he.trans hf
    rw [mutate_present s m1 pre e suf hl hpre he,
      mutate_present s m2 pre e suf hl hpre2 he2,
      mutate_present (s.withFeatureSummaries (some (pre ++ m1.update e :: suf))) m2 pre
        (m1.update e) suf rfl hpre2 ((update_FeatureID m1 e).trans he2),
      mutate_present (s.withFeatureSummaries (some (pre ++ m2.update e :: suf))) m1 pre
        (m2.update e) suf rfl hpre ((update_FeatureID m2 e).trans he),
      update_comm m1 m2 hne e]
    rfl
  · have habs2 : ∀ x ∈ s.summaries, x.FeatureID ≠ m2.featureID := hf ▸ habs
    rw [mutate_absent s m1 habs, mutate_absent s m2 habs2,
      mutate_present
        (s.withFeatureSummaries (some (s.summaries ++ [m1.update { FeatureID := m1.featureID }])))
        m2 s.summaries (m1.update { FeatureID := m1.featureID }) [] rfl habs2
        ((update_FeatureID m1 _).trans hf),
      mutate_present
        (s.withFeatureSummaries (some (s.summaries ++ [m2.update { FeatureID := m2.featureID }])))
        m1 s.summaries (m2.update { FeatureID := m2.featureID }) [] rfl habs
        ((update_FeatureID m2 _).trans hf.symm),
      update_comm m1 m2 hne, hf]
    rfl

/-- Witness of C22: `SetFeatureStatus` and `SetDeployedGroupVersionKind` for
`Kustomize`, which has no entry in the example record, and `SetFailureReason` and
`SetLastAppliedTime` for `Resources`, which has one. -/
theorem mutators_commute_witness :
    ((exampleScope.mutate (.setFeatureStatus "Kustomize" "Provisioned" (some [8]))).mutate
        (.setDeployedGroupVersionKind "Kustomize" [{ Version := "v1", Kind := "Secret" }]) =
      (exampleScope.mutate
        (.setDeployedGroupVersionKind "Kustomize" [{ Version := "v1", Kind := "Secret" }])).mutate
        (.setFeatureStatus "Kustomize" "Provisioned" (some [8]))) ∧
    ((exampleScope.mutate (.setFailureReason "Resources" (some "timeout"))).mutate
        (.setLastAppliedTime "Resources" (some { unixNano := 17 })) =
      (exampleScope.mutate (.setLastAppliedTime "Resources" (some { unixNano := 17 }))).mutate
        (.setFailureReason "Resources" (some "timeout"))) ∧
    ((exampleScope.mutate (.setFeatureStatus "Kustomize" "Provisioned" (some [8]))).mutate
        (.setDeployedGroupVersionKind "Kustomize"
          [{ Version := "v1", Kind := "Secret" }])).summaries.map
        (fun e => (e.FeatureID, e.Status, e.DeployedGroupVersionKind)) =
      [("Helm", "Provisioned", some ["Deployment.v1.apps"]), ("Resources", "Failed", none),
       ("Kustomize", "Provisioned", some ["Secret.v1."])] :=
  ⟨mutators_commute exampleScope _ _ (by decide) (by decide),
    mutators_commute exampleScope _ _ (by decide) (by decide), by decide⟩

/-! ## The deployed-kind key -/

/-- Two lists that agree after a separator occurring in neither front part have equal
front parts and equal rests. -/
theorem append_cons_inj (c : Char) :
    ∀ (l1 l2 r1 r2 : List Char), c ∉ l1 → c ∉ l2 → l1 ++ c :: r1 = l2 ++ c :: r2 →
      l1 = l2 ∧ r1 = r2 := by
  intro l1
  induction l1 with
  | nil =>
    intro l2 r1 r2 _ h2 h
    cases l2 with
    | nil => simpa using h
    | cons x l2 =>
      simp only [List.nil_append, List.cons_append, List.cons.injEq] at h
      exact absurd (h.1 ▸ List.mem_cons_self _ _) h2
  | cons x l1 ih =>
    intro l2 r1 r2 h1 h2 h
    cases l2 with
    | nil =>
      simp only [List.nil_append, List.cons_append, List.cons.injEq] at h
      exact absurd (h.1 ▸ List.mem_cons_self _ _) h1
    | cons y l2 =>
      simp only [List.cons_append, List.cons.injEq] at h
      obtain ⟨h3, h4⟩ := ih l2 r1 r2 (fun hm => h1 (List.mem_cons_of_mem _ hm))
        (fun hm => h2 (List.mem_cons_of_mem _ hm)) h.2
      exact ⟨by rw [h.1, h3], h4⟩

/-- The characters of a key: kind, dot, version, dot, group. -/
theorem gvkKey_data (gvk : GroupVersionKind) :
    (gvkKey gvk).data =
      gvk.Kind.data ++ '.' :: (gvk.Version.data ++ '.' :: gvk.Group.data) := by
  simp [gvkKey, String.data_append]

/-- The key is injective on well-formed kinds. -/
theorem gvkKey_inj (a b : GroupVersionKind) (ha : a.wellFormed) (hb : b.wellFormed)
    (hkey : gvkKey a = gvkKey b) : a = b := by
  have hdata : (gvkKey a).data = (gvkKey b).data := by rw [hkey]
  rw [gvkKey_data, gvkKey_data] at hdata
  obtain ⟨h1, hrest⟩ := append_cons_inj '.' _ _ _ _ ha.1 hb.1 hdata
  obtain ⟨h2, h3⟩ := append_cons_inj '.' _ _ _ _ ha.2 hb.2 hrest
  obtain ⟨g, v, k⟩ := a
  obtain ⟨g2, v2, k2⟩ := b
  simp only at h1 h2 h3
  have hk : k = k2 := String.ext h1
  have hv : v = v2 := String.ext h2
  have hg : g = g2 := String.ext h3
  rw [hk, hv, hg]

/-- A key is among the first appearances exactly when it is among the keys. -/
theorem mem_keepFirst (keys : List String) (x : String) :
    x ∈ keepFirst keys ↔ x ∈ keys := by
  induction keys with
  | nil => simp [keepFirst]
  | cons k rest ih =>
    simp only [keepFirst, List.mem_cons, List.mem_filter, ih]
    by_cases hx : x = k <;> simp [hx]

/-- The key of every observed kind is in the merged list. -/
theorem mem_mergeKeys (recorded : List String) (deployed : List GroupVersionKind)
    (d : GroupVersionKind) (hd : d ∈ deployed) : gvkKey d ∈ mergeKeys recorded deployed := by
  rw [mergeKeys_eq, List.mem_append, List.mem_filter, mem_keepFirst]
  by_cases h : gvkKey d ∈ recorded
  · exact Or.inl h
  · exact Or.inr ⟨List.mem_map.2 ⟨d, hd, rfl⟩, by simpa using h⟩

/-- C23: on kinds whose kind and version contain no dot the key `Kind.Version.Group` is
injective, so after `SetDeployedGroupVersionKind` the key of every observed kind is in
the deployed list, and an observed kind that is not appended because its key was
recorded is itself one of the recorded kinds, not a different one. -/
theorem gvkKey_injective_on_wellFormed :
    (∀ a b : GroupVersionKind, a.wellFormed → b.wellFormed → gvkKey a = gvkKey b → a = b) ∧
    (∀ (s : ClusterSummaryScope) (featureID : FeatureID) (deployed : List GroupVersionKind)
        (d : GroupVersionKind), d ∈ deployed →
      gvkKey d ∈ (s.SetDeployedGroupVersionKind featureID deployed).deployedOf featureID) ∧
    (∀ (s : ClusterSummaryScope) (featureID : FeatureID) (recorded : List GroupVersionKind)
        (d : GroupVersionKind), (∀ r ∈ recorded, r.wellFormed) → d.wellFormed →
      s.deployedOf featureID = recorded.map gvkKey →
      gvkKey d ∈ s.deployedOf featureID → d ∈ recorded) := by
  refine ⟨gvkKey_inj, ?_, ?_⟩
  · intro s featureID deployed d hd
    rw [deployedOf_SetDeployedGroupVersionKind]
    exact mem_mergeKeys _ _ d hd
  · intro s featureID recorded d hrec hd hlist hmem
    rw [hlist] at hmem
    obtain ⟨r, hr, hkey⟩ := List.mem_map.1 hmem
    rw [gvkKey_inj r d (hrec r hr) hd hkey] at hr
    exact hr

/-- Witness of C23: two well-formed kinds with different keys, and two kinds with a dot
in the kind or the version whose keys collide. -/
theorem gvkKey_injective_on_wellFormed_witness :
    (gvkKey { Group := "apps", Version := "v1", Kind := "Deployment" } =
        gvkKey { Group := "apps", Version := "v1", Kind := "Deployment" } →
      ({ Group := "apps", Version := "v1", Kind := "Deployment" } : GroupVersionKind) =
        { Group := "apps", Version := "v1", Kind := "Deployment" }) ∧
    gvkKey { Group := "cluster.x-k8s.io", Version := "v1beta1", Kind := "Cluster" } =
      "Cluster.v1beta1.cluster.x-k8s.io" ∧
    gvkKey { Group := "g", Version := "c", Kind := "a.b" } =
      gvkKey { Group := "g", Version := "b.c", Kind := "a" } ∧
    (exampleScope.deployedOf "Helm" =
        [({ Group := "apps", Version := "v1", Kind := "Deployment" } : GroupVersionKind)].map
          gvkKey ∧
      ({ Group := "apps", Version := "v1", Kind := "Deployment" } : GroupVersionKind) ∈
        [({ Group := "apps", Version := "v1", Kind := "Deployment" } : GroupVersionKind)]) :=
  ⟨gvkKey_injective_on_wellFormed.1 _ _ (by simp [GroupVersionKind.wellFormed])
      (by simp [GroupVersionKind.wellFormed]),
    by decide, by decide, by decide,
    gvkKey_injective_on_wellFormed.2.2 exampleScope "Helm"
      [{ Group := "apps", Version := "v1", Kind := "Deployment" }]
      { Group := "apps", Version := "v1", Kind := "Deployment" }
      (by simp [GroupVersionKind.wellFormed]) (by simp [GroupVersionKind.wellFormed])
      (by decide) (by decide)⟩

/-! ## Totality on the scopes the constructor returns -/

/-- A struct the constructor returned has a `ClusterSummary` pointer that is not
nil. -/
theorem NewClusterSummaryScopeStruct_nonnil {κ : Type}
    (NewHelper : ClusterSummary → κ → Option Error) (params : ClusterSummaryScopeParams κ)
    (p : ScopeStruct) (hnew : NewClusterSummaryScopeStruct NewHelper params = .ok p) :
    ∃ s, p.deref = some s := by
  obtain ⟨client, logger, clusterProfile, clusterSummary, controllerName⟩ := params
  cases client with
  | none => simp [NewClusterSummaryScopeStruct] at hnew
  | some c =>
    cases clusterSummary with
    | none => simp [NewClusterSummaryScopeStruct] at hnew
    | some cs =>
      simp only [NewClusterSummaryScopeStruct] at hnew
      cases hh : NewHelper cs c with
      | some err => simp [hh] at hnew
      | none =>
        simp only [hh, Except.ok.injEq] at hnew
        subst hnew
        exact ⟨_, rfl⟩

/-- The struct the constructor builds is the struct of the scope it returns. -/
theorem NewClusterSummaryScopeStruct_eq {κ : Type}
    (NewHelper : ClusterSummary → κ → Option Error) (params : ClusterSummaryScopeParams κ) :
    NewClusterSummaryScopeStruct NewHelper params =
      (NewClusterSummaryScope NewHelper params).map (fun s => s.toStruct) := by
  obtain ⟨client, logger, clusterProfile, clusterSummary, controllerName⟩ := params
  cases client with
  | none => rfl
  | some c =>
    cases clusterSummary with
    | none => rfl
    | some cs =>
      simp only [NewClusterSummaryScopeStruct, NewClusterSummaryScope]
      cases NewHelper cs c <;> rfl

/-- C24: on a scope that `NewClusterSummaryScope` returned without error, each of the
five mutators, `Name`, `Namespace` and the three sync-mode predicates returns, for all
arguments, nil ones included, and a mutator leaves a scope whose `ClusterSummary`
pointer is again not nil. -/
theorem methods_total_on_new_scope {κ : Type}
    (NewHelper : ClusterSummary → κ → Option Error) (params : ClusterSummaryScopeParams κ)
    (p : ScopeStruct) (hnew : NewClusterSummaryScopeStruct NewHelper params = .ok p) :
    (∀ featureID status hash, ∃ p2, p.SetFeatureStatus featureID status hash = some p2 ∧
      p2.ClusterSummary ≠ none) ∧
    (∀ featureID failureReason, ∃ p2, p.SetFailureReason featureID failureReason = some p2 ∧
      p2.ClusterSummary ≠ none) ∧
    (∀ featureID failureMessage, ∃ p2,
      p.SetFailureMessage featureID failureMessage = some p2 ∧ p2.ClusterSummary ≠ none) ∧
    (∀ featureID deployed, ∃ p2,
      p.SetDeployedGroupVersionKind featureID deployed = some p2 ∧ p2.ClusterSummary ≠ none) ∧
    (∀ featureID lastAppliedTime, ∃ p2,
      p.SetLastAppliedTime featureID lastAppliedTime = some p2 ∧ p2.ClusterSummary ≠ none) ∧
    (∃ name, p.Name = some name) ∧ (∃ ns, p.Namespace = some ns) ∧
    (∃ b, p.IsContinuousSync = some b) ∧ (∃ b, p.IsOneTimeSync = some b) ∧
    (∃ b, p.IsDryRunSync = some b) := by
  obtain ⟨s, hs⟩ := NewClusterSummaryScopeStruct_nonnil NewHelper params p hnew
  refine ⟨?_, ?_, ?_, ?_, ?_, ?_, ?_, ?_, ?_, ?_⟩
  · intro featureID status hash
    exact ⟨_, by rw [ScopeStruct.SetFeatureStatus, hs]; rfl, by simp [ClusterSummaryScope.toStruct]⟩
  · intro featureID failureReason
    exact ⟨_, by rw [ScopeStruct.SetFailureReason, hs]; rfl, by simp [ClusterSummaryScope.toStruct]⟩
  · intro featureID failureMessage
    exact ⟨_, by rw [ScopeStruct.SetFailureMessage, hs]; rfl, by simp [ClusterSummaryScope.toStruct]⟩
  · intro featureID deployed
    exact ⟨_, by rw [ScopeStruct.SetDeployedGroupVersionKind, hs]; rfl,
      by simp [ClusterSummaryScope.toStruct]⟩
  · intro featureID lastAppliedTime
    exact ⟨_, by rw [ScopeStruct.SetLastAppliedTime, hs]; rfl, by simp [ClusterSummaryScope.toStruct]⟩
  · exact ⟨_, by rw [ScopeStruct.Name, hs]; rfl⟩
  · exact ⟨_, by rw [ScopeStruct.Namespace, hs]; rfl⟩
  · exact ⟨_, by rw [ScopeStruct.IsContinuousSync, hs]; rfl⟩
  · exact ⟨_, by rw [ScopeStruct.IsOneTimeSync, hs]; rfl⟩
  · exact ⟨_, by rw [ScopeStruct.IsDryRunSync, hs]; rfl⟩

/-- Witness of C24: the constructor on parameters whose cluster summary has a nil
`FeatureSummaries`; `SetFeatureStatus` with a nil hash for an unknown feature returns,
while on a struct literal with a nil `ClusterSummary` it panics. -/
theorem methods_total_on_new_scope_witness :
    NewClusterSummaryScopeStruct (fun _ (_ : Unit) => none) emptyParams =
      .ok { ClusterSummary := some {} } ∧
    (∃ p2, ({ ClusterSummary := some {} } : ScopeStruct).SetFeatureStatus "Helm" "" none =
        some p2 ∧ p2.ClusterSummary ≠ none) ∧
    ({ ClusterSummary := some {} } : ScopeStruct).SetDeployedGroupVersionKind "Helm" none =
      some { ClusterSummary :=
               some { Status :=
                        { FeatureSummaries :=
                            some [{ FeatureID := "Helm"
                                    DeployedGroupVersionKind := some [] }] } } } ∧
    ({} : ScopeStruct).SetFeatureStatus "Helm" "" none = none :=
  ⟨rfl,
    (methods_total_on_new_scope (fun _ (_ : Unit) => none) emptyParams
      { ClusterSummary := some {} } rfl).1 "Helm" "" none,
    by decide, by decide⟩

end Sveltos
